import Mathlib

/-!
# Upload handlers of the file-storage server

A shallow embedding of `handler_upload_video.go` and `handler_upload_thumbnail.go`.

* Go `string` is `String`, a byte slice is a `List Nat` of byte values.
* A Go function returning `(T, error)` returns a `Result T`, which has a third
  outcome for a run-time panic (slice index out of range).
* Calls into the Go standard library, the AWS SDK, the `auth` and `database`
  packages and the two external programs (`ffprobe`, `ffmpeg`) are fields of
  `Env`: every theorem holds for every behaviour of these collaborators.
* The local filesystem and the sequence of calls made to the collaborators are
  an explicit `World` that the handlers thread through.
-/

namespace Tubely

/-- Byte strings: file contents and request bodies. -/
abbrev Bytes := List Nat

/-- Outcome of a Go call returning `(T, error)`; `fault` is a run-time panic. -/
inductive Result (α : Type) where
  | ok (a : α)
  | err (msg : String)
  | fault (msg : String)
  deriving DecidableEq, Repr

/-- Local type `Stream` of `getVideoAspectRatio`: the field is the empty string
when the key `display_aspect_ratio` is absent from the JSON object. -/
structure Stream where
  DisplayAspectRatio : String
  deriving DecidableEq, Repr

/-- Local type `FFProbeOutput` of `getVideoAspectRatio`: the list is empty when the
key `streams` is absent, null or an empty array. -/
structure FFProbeOutput where
  Streams : List Stream
  deriving DecidableEq, Repr

/-- The local filesystem: the content of each path that exists. -/
abbrev FS := String → Option Bytes

/-- Modelled from the spec: the type `database.Video` is declared in
`internal/database`, which is not among the sources; the record has an identifier,
an owning user identifier, an optional thumbnail reference and an optional video
reference. -/
structure Video where
  ID : String
  UserID : String
  ThumbnailURL : Option String
  VideoURL : Option String
  deriving DecidableEq, Repr

/-- The fields of `apiConfig` that the two handlers read. -/
structure ApiConfig where
  jwtSecret : String
  s3Bucket : String
  assetsRoot : String
  port : String
  deriving DecidableEq, Repr

/-- An inbound request: the path value `videoID`, the headers and the raw body. -/
structure Request where
  videoID : String
  Header : List (String × String)
  Body : Bytes
  deriving DecidableEq, Repr

/-- What `ffmpeg` did: the file it left at its output path (if any), its standard
error and its exit error (if any). -/
structure FfmpegRun where
  written : Option Bytes
  stderr : String
  exitErr : Option String
  deriving DecidableEq, Repr

/-- The collaborators of the handlers. Each field is one call the source makes
outside this repository; `Except.error` (or `some` for a call returning only an
`error`) is a non-nil Go error. -/
structure Env where
  /-- Call `uuid.Parse`. -/
  uuidParse : String → Except String String
  /-- Call `auth.GetBearerToken`. -/
  getBearerToken : List (String × String) → Except String String
  /-- Call `auth.ValidateJWT` with the token and the secret. -/
  validateJWT : String → String → Except String String
  /-- Call `cfg.db.GetVideo`. -/
  getVideo : String → Except String Video
  /-- Call `cfg.db.UpdateVideo`. -/
  updateVideo : Video → Option String
  /-- Call `r.ParseMultipartForm` on the body with the memory limit. -/
  parseMultipartForm : Bytes → Nat → Option String
  /-- Call `r.FormFile` on the body: the content of the named part and the value
  of its `Content-Type` header. -/
  formFile : Bytes → String → Except String (Bytes × String)
  /-- The files (path, content) that the multipart reader leaves in the temp
  directory when the body is parsed with the given memory limit: parts that do not
  fit in memory are written to `multipart-*` files. -/
  formSpill : Bytes → Nat → List (String × Bytes)
  /-- Call `mime.ParseMediaType`: the media type, lower-cased, without parameters. -/
  parseMediaType : String → Except String String
  /-- Call `os.CreateTemp` with directory and pattern: the path of the new file. -/
  createTemp : String → String → Except String String
  /-- Call `os.Create`. -/
  osCreate : String → Option String
  /-- Call `io.Copy` from the uploaded part: `none` when the whole content was
  copied, `some (n, e)` when it stopped with error `e` after `n` bytes. -/
  ioCopy : Bytes → Option (Nat × String)
  /-- Run `ffprobe -v error -print_format json -show_streams` on a path: its
  standard output. -/
  ffprobe : FS → String → Except String Bytes
  /-- Call `json.Unmarshal` into an `FFProbeOutput`. -/
  jsonUnmarshal : Bytes → Except String FFProbeOutput
  /-- Call `tempFile.Seek(0, io.SeekStart)`. -/
  seekStart : String → Option String
  /-- Run `ffmpeg -i input -c copy -movflags faststart -f mp4 output`. -/
  ffmpeg : FS → String → String → FfmpegRun
  /-- Call `os.Open`. -/
  osOpen : FS → String → Option String
  /-- Call `rand.Read` on a 32-byte slice. -/
  randRead : Except String { rs : Bytes // rs.length = 32 }
  /-- Call `s3Client.PutObject` with bucket, key, body and content type. -/
  putObject : String → String → Bytes → String → Option String
  /-- Call `PresignGetObject` with bucket, key and expiry (nanoseconds): the URL. -/
  presignGetObject : String → String → Nat → Except String String
  /-- Call `filepath.Join`. -/
  pathJoin : String → String → String

/-- One call the handlers make on the local disk, the subprocesses, the random
source or the stores, with what it was given and how it ended. Reading the multipart
form is not in the list: what the reader spills shows in the filesystem. -/
inductive Event where
  | createTemp (res : Option String)
  | create (path : String) (ok : Bool)
  | copy (path : String) (data : Bytes) (ok : Bool)
  | inspect (path : String) (res : Result String)
  | seek (path : String) (ok : Bool)
  | remux (path : String) (res : Option String)
  | openFile (path : String) (ok : Bool)
  | randRead (ok : Bool)
  | putObject (bucket key : String) (body : Bytes) (contentType : String) (ok : Bool)
  | updateVideo (v : Video) (ok : Bool)
  | presign (bucket key : String) (expire : Nat) (ok : Bool)
  | remove (path : String)
  deriving DecidableEq, Repr

/-- The filesystem after the multipart reader has written its spilled parts. -/
def spill (fs : FS) (files : List (String × Bytes)) : FS :=
  files.foldl (fun acc pd => fun q => if q = pd.1 then some pd.2 else acc q) fs

/-- The filesystem together with the calls made so far, oldest first. -/
structure World where
  fs : FS
  trace : List Event

/-- How a handler run ends: one of the two response helpers was called, or the
goroutine panicked (the deferred calls still run, no response is written). -/
inductive Outcome where
  | respondWithError (code : Nat) (msg : String)
  | respondWithJSON (code : Nat) (payload : Video)
  | panicked (msg : String)
  deriving DecidableEq, Repr

namespace World

/-- Record a call. -/
def log (w : World) (e : Event) : World :=
  { w with trace := w.trace ++ [e] }

/-- Set the content of a path. -/
def write (w : World) (path : String) (data : Bytes) : World :=
  { w with fs := fun q => if q = path then some data else w.fs q }

/-- The call `os.Remove(path)`; its error is ignored by both handlers. -/
def remove (w : World) (path : String) : World :=
  { fs := fun q => if q = path then none else w.fs q, trace := w.trace ++ [Event.remove path] }

end World

/-- The constant `time.Minute`, in nanoseconds. -/
def Minute : Nat := 60 * 1000000000

/-- The reader `http.MaxBytesReader(w, body, n)` read to its end: the body, or an
error once more than `n` bytes have been read. -/
def MaxBytesReader (body : Bytes) (n : Nat) : Except String Bytes :=
  if body.length ≤ n then .ok body else .error "http: request body too large"

/-- Pieces of a character list between occurrences of a separator. -/
def splitChars (sep : Char) : List Char → List (List Char)
  | [] => [[]]
  | c :: cs =>
    if c = sep then [] :: splitChars sep cs
    else match splitChars sep cs with
      | [] => [[c]]
      | p :: ps => (c :: p) :: ps

/-- The call `strings.Split(s, sep)` for a one-character separator. -/
def Split (s : String) (sep : Char) : List String :=
  (splitChars sep s.toList).map String.mk

/-- The alphabet of `base64.RawURLEncoding`. -/
def encodeURL : List Char :=
  "ABCDEFGHIJKLMNOPQRSTUVWXYZabcdefghijklmnopqrstuvwxyz0123456789-_".toList

/-- The character for the low six bits of a number. -/
def b64Char (n : Nat) : Char := encodeURL.getD (n % 64) 'A'

/-- Unpadded base64: three bytes give four characters, a rest of two gives three,
a rest of one gives two. -/
def encodeChars : List Nat → List Char
  | a :: b :: c :: rest =>
    let v := (a % 256) * 65536 + (b % 256) * 256 + c % 256
    b64Char (v / 262144) :: b64Char (v / 4096) :: b64Char (v / 64) :: b64Char v
      :: encodeChars rest
  | [a, b] =>
    let v := (a % 256) * 65536 + (b % 256) * 256
    [b64Char (v / 262144), b64Char (v / 4096), b64Char (v / 64)]
  | [a] =>
    let v := (a % 256) * 65536
    [b64Char (v / 262144), b64Char (v / 4096)]
  | [] => []

/-- The call `base64.RawURLEncoding.EncodeToString`. -/
def EncodeToString (src : Bytes) : String := String.mk (encodeChars src)

/-- Function `getVideoAspectRatio` (handler_upload_video.go, lines 163-192): run the
probe, decode its output, then read `s.Streams[0]` without a length check. -/
def getVideoAspectRatio (env : Env) (fs : FS) (filePath : String) : Result String :=
  match env.ffprobe fs filePath with
  | .error e => .err e
  | .ok buf =>
    match env.jsonUnmarshal buf with
    | .error e => .err e
    | .ok s =>
      match s.Streams with
      | [] => .fault "index out of range [0] with length 0"
      | s0 :: _ =>
        if s0.DisplayAspectRatio = "16:9" ∨ s0.DisplayAspectRatio = "9:16" then
          .ok s0.DisplayAspectRatio
        else
          .ok "other"

/-- Lines 97-103 of `handlerUploadVideo`: the value of the local `aspectName`. -/
def aspectName (aspect : String) : String :=
  if aspect = "16:9" then "landscape"
  else if aspect = "9:16" then "portrait"
  else "other"

/-- Function `processVideoForFastStart` (lines 194-215): run the remuxer writing to
`filePath + ".processing"`, then require that the output exists and is not empty.
The second component is the filesystem after the subprocess has run. -/
def processVideoForFastStart (env : Env) (fs : FS) (filePath : String) :
    Except String String × FS :=
  let output := filePath ++ ".processing"
  let run := env.ffmpeg fs filePath output
  let fs1 : FS :=
    match run.written with
    | some data => fun q => if q = output then some data else fs q
    | none => fs
  match run.exitErr with
  | some e => (.error ("error process video: " ++ run.stderr ++ ", " ++ e), fs1)
  | none =>
    match fs1 output with
    | none =>
      (.error ("could not stat processed file: stat " ++ output
        ++ ": no such file or directory"), fs1)
    | some data =>
      if data.length = 0 then (.error "processed file is empty", fs1)
      else (.ok output, fs1)

/-- Function `generatePresignedURL` (lines 235-245). -/
def generatePresignedURL (env : Env) (bucket key : String) (expireTime : Nat)
    (w : World) : Except String String × World :=
  match env.presignGetObject bucket key expireTime with
  | .error e =>
    (.error ("failed to generate presigned URL: " ++ e),
      w.log (.presign bucket key expireTime false))
  | .ok url => (.ok url, w.log (.presign bucket key expireTime true))

/-- Method `dbVideoToSignedVideo` (lines 217-233): split the stored reference at
commas and sign the first two pieces as bucket and key. -/
def dbVideoToSignedVideo (env : Env) (video : Video) (w : World) :
    Except String Video × World :=
  match video.VideoURL with
  | none => (.ok video, w)
  | some url =>
    match Split url ',' with
    | bucket :: key :: _ =>
      match generatePresignedURL env bucket key (5 * Minute) w with
      | (.error e, w1) => (.error e, w1)
      | (.ok presigned, w1) => (.ok { video with VideoURL := some presigned }, w1)
    | _ => (.ok video, w)

/-- Lines 118-160 of `handlerUploadVideo`, the part that runs once the remuxer has
returned `processed`. The body given to `PutObject` is `tempFile`, the handle of the
staged file rewound at line 105; `processedFile` is opened and not read. -/
def uploadProcessed (env : Env) (cfg : ApiConfig) (video : Video) (mtype media : String)
    (aspect tempName processed : String) (w : World) : Outcome × World :=
  match env.osOpen w.fs processed with
  | some _ =>
    (.respondWithError 500 "Couldn't open processed file", w.log (.openFile processed false))
  | none =>
    let wo := w.log (.openFile processed true)
    match env.randRead with
    | .error _ => (.respondWithError 400 "Couldn't random", wo.log (.randRead false))
    | .ok rs =>
      let wr := wo.log (.randRead true)
      let newFileName := EncodeToString rs.val
      match (Split mtype '/').get? 1 with
      | none => (.panicked "index out of range [1] with length 1", wr)
      | some ext =>
        let filename := aspectName aspect ++ "/" ++ newFileName ++ "." ++ ext
        let body := (wr.fs tempName).getD []
        match env.putObject cfg.s3Bucket filename body media with
        | some _ =>
          (.respondWithError 500 ("Couldn't put object in S3 bucket: " ++ cfg.s3Bucket),
            wr.log (.putObject cfg.s3Bucket filename body media false))
        | none =>
          let w1 := wr.log (.putObject cfg.s3Bucket filename body media true)
          let newUrl := cfg.s3Bucket ++ "," ++ filename
          let video1 : Video := { video with VideoURL := some newUrl }
          match env.updateVideo video1 with
          | some _ =>
            (.respondWithError 500 "Couldn't update db with video",
              w1.log (.updateVideo video1 false))
          | none =>
            match dbVideoToSignedVideo env video1 (w1.log (.updateVideo video1 true)) with
            | (.error _, w2) =>
              (.respondWithError 500 "Couldn't generate presigned URL", w2)
            | (.ok video2, w2) => (.respondWithJSON 200 video2, w2)

/-- Lines 85-124 of `handlerUploadVideo`, the part that runs once the temp file
exists. `os.Remove(processed)` is deferred at line 116, after the remuxer has
returned without error, so it runs on the exits of `uploadProcessed` only. -/
def uploadStaged (env : Env) (cfg : ApiConfig) (video : Video) (f : Bytes)
    (mtype media tempName : String) (w : World) : Outcome × World :=
  match env.ioCopy f with
  | some (n, _) =>
    (.respondWithError 500 "Couldn't copy to temp file",
      (w.write tempName (f.take n)).log (.copy tempName (f.take n) false))
  | none =>
    let w1 := (w.write tempName f).log (.copy tempName f true)
    let res := getVideoAspectRatio env w1.fs tempName
    let w2 := w1.log (.inspect tempName res)
    match res with
    | .err _ => (.respondWithError 500 "Couldn't get aspect ratio", w2)
    | .fault m => (.panicked m, w2)
    | .ok aspect =>
      match env.seekStart tempName with
      | some _ =>
        (.respondWithError 500 "Couldn't reset tempfile pointer",
          w2.log (.seek tempName false))
      | none =>
        let ws := w2.log (.seek tempName true)
        match processVideoForFastStart env ws.fs tempName with
        | (.error _, fs3) =>
          (.respondWithError 500 "Couldn't process for fast start",
            ({ ws with fs := fs3 }).log (.remux tempName none))
        | (.ok processed, fs3) =>
          let w3 := ({ ws with fs := fs3 }).log (.remux tempName (some processed))
          let (out, w4) := uploadProcessed env cfg video mtype media aspect tempName processed w3
          (out, w4.remove processed)

/-- Method `handlerUploadVideo` (lines 26-161). The reader made by
`http.MaxBytesReader` at line 27 is dropped: `r.Body` is not replaced by it. The call
`r.FormFile` at line 58 parses the form with the default memory limit of 32 MiB and
leaves the spilled parts on disk. The deferred `os.Remove` of line 82 names the
literal `"tubely-upload.mp4"`. -/
def handlerUploadVideo (env : Env) (cfg : ApiConfig) (r : Request) (fs : FS) :
    Outcome × World :=
  let w : World := { fs := fs, trace := [] }
  let _limited := MaxBytesReader r.Body (1 <<< 30)
  match env.uuidParse r.videoID with
  | .error _ => (.respondWithError 400 "Invalid ID", w)
  | .ok videoID =>
    match env.getBearerToken r.Header with
    | .error _ => (.respondWithError 401 "Couldn't find JWT", w)
    | .ok token =>
      match env.validateJWT token cfg.jwtSecret with
      | .error _ => (.respondWithError 401 "Couldn't validate JWT", w)
      | .ok userID =>
        match env.getVideo videoID with
        | .error _ => (.respondWithError 400 "Couldn't find video", w)
        | .ok video =>
          if video.UserID ≠ userID then (.respondWithError 401 "Video owner mismatch", w)
          else
            let wf : World := { w with fs := spill w.fs (env.formSpill r.Body (32 <<< 20)) }
            match env.formFile r.Body "video" with
            | .error _ => (.respondWithError 400 "Couldn't read video from FormFile", wf)
            | .ok (f, mtype) =>
              match env.parseMediaType mtype with
              | .error _ => (.respondWithError 400 "Couldn't parse mediatype", wf)
              | .ok media =>
                if media ≠ "video/mp4" then (.respondWithError 400 "Wrong media type", wf)
                else
                  match env.createTemp "" "tubely-upload.mp4" with
                  | .error _ =>
                    (.respondWithError 500 "Couldn't create temp file",
                      wf.log (.createTemp none))
                  | .ok tempName =>
                    let w1 := (wf.write tempName []).log (.createTemp (some tempName))
                    let (out, w2) := uploadStaged env cfg video f mtype media tempName w1
                    (out, w2.remove "tubely-upload.mp4")

/-- Method `handlerUploadThumbnail` (handler_upload_thumbnail.go, lines 17-98). The
call `r.ParseMultipartForm` at line 41 parses the form with a memory limit of 10 MiB
and leaves the spilled parts on disk. -/
def handlerUploadThumbnail (env : Env) (cfg : ApiConfig) (r : Request) (fs : FS) :
    Outcome × World :=
  let w : World := { fs := fs, trace := [] }
  match env.uuidParse r.videoID with
  | .error _ => (.respondWithError 400 "Invalid ID", w)
  | .ok _ =>
    match env.getBearerToken r.Header with
    | .error _ => (.respondWithError 401 "Couldn't find JWT", w)
    | .ok token =>
      match env.validateJWT token cfg.jwtSecret with
      | .error _ => (.respondWithError 401 "Couldn't validate JWT", w)
      | .ok _ =>
        let wf : World := { w with fs := spill w.fs (env.formSpill r.Body (10 <<< 20)) }
        match env.parseMultipartForm r.Body (10 <<< 20) with
        | some _ => (.respondWithError 400 "Couldn't parse request", wf)
        | none =>
          match env.formFile r.Body "thumbnail" with
          | .error _ => (.respondWithError 400 "Couldn't read thumbnail from FormFile", wf)
          | .ok (f, mtype) =>
            match env.uuidParse r.videoID with
            | .error _ => (.respondWithError 400 "Bad video id", wf)
            | .ok vid =>
              match env.parseMediaType mtype with
              | .error _ => (.respondWithError 400 "Couldn't parse mediatype", wf)
              | .ok media =>
                if media ≠ "image/jpg" ∧ media ≠ "image/png" then
                  (.respondWithError 400 "Wrong media type", wf)
                else
                  match (Split mtype '/').get? 1 with
                  | none => (.panicked "index out of range [1] with length 1", wf)
                  | some ext =>
                    let filename := r.videoID ++ "." ++ ext
                    let pth := env.pathJoin cfg.assetsRoot filename
                    match env.osCreate pth with
                    | some _ =>
                      (.respondWithError 400 "Couldn't create file", wf.log (.create pth false))
                    | none =>
                      let w1 := (wf.write pth []).log (.create pth true)
                      match env.ioCopy f with
                      | some (n, _) =>
                        (.respondWithError 400 "Couldn't copy file",
                          (w1.write pth (f.take n)).log (.copy pth (f.take n) false))
                      | none =>
                        let w2 := (w1.write pth f).log (.copy pth f true)
                        match env.getVideo vid with
                        | .error _ => (.respondWithError 400 "Couldn't find video", w2)
                        | .ok v =>
                          let url := "http://localhost:" ++ cfg.port ++ "/assets/" ++ filename
                          let v1 : Video := { v with ThumbnailURL := some url }
                          (.respondWithJSON 200 v1,
                            w2.log (.updateVideo v1 (env.updateVideo v1).isNone))

/-! ## Reading a run -/

/-- The five stages of the pipeline, in the order of the source. -/
inductive Stage where
  | stage | inspect | remux | upload | commit
  deriving DecidableEq, Repr

/-- The stage a call belongs to; `os.Remove`, signing and the auxiliary calls
(`Seek`, `os.Open`, `rand.Read`) belong to none. -/
def Event.stage : Event → Option Stage
  | .createTemp _ => some .stage
  | .copy _ _ _ => some .stage
  | .inspect _ _ => some .inspect
  | .remux _ _ => some .remux
  | .putObject _ _ _ _ _ => some .upload
  | .updateVideo _ _ => some .commit
  | _ => none

/-- The call returned a non-nil error. -/
def Event.failed : Event → Bool
  | .createTemp none => true
  | .create _ false => true
  | .copy _ _ false => true
  | .inspect _ (.err _) => true
  | .seek _ false => true
  | .remux _ none => true
  | .openFile _ false => true
  | .randRead false => true
  | .putObject _ _ _ _ false => true
  | .updateVideo _ false => true
  | .presign _ _ _ false => true
  | _ => false

/-- The call is `PutObject`. -/
def Event.isPutObject : Event → Bool
  | .putObject _ _ _ _ _ => true
  | _ => false

/-- The call is `UpdateVideo`. -/
def Event.isUpdateVideo : Event → Bool
  | .updateVideo _ _ => true
  | _ => false

/-- The call is `os.Remove`. -/
def Event.isRemove : Event → Bool
  | .remove _ => true
  | _ => false

/-- The call is the handler's own `os.CreateTemp`, `os.Create` or `io.Copy`. -/
def Event.isFileWrite : Event → Bool
  | .createTemp _ => true
  | .create _ _ => true
  | .copy _ _ _ => true
  | _ => false

/-- The handler answered through `respondWithError` with a 4xx or 5xx status. -/
def Outcome.isError : Outcome → Bool
  | .respondWithError code _ => decide (400 ≤ code)
  | _ => false

/-- The call is `PresignGetObject`. -/
def Event.isPresign : Event → Bool
  | .presign _ _ _ _ => true
  | _ => false

/-- The calls made after the first call that returned an error. -/
def afterFailure : List Event → List Event
  | [] => []
  | e :: es => if e.failed then es else afterFailure es

/-- The calls made after the first signing call. -/
def afterSign : List Event → List Event
  | [] => []
  | e :: es => if e.isPresign then es else afterSign es

/-- What lines 118-160 can do: the calls made from `os.Open` on, in order, and how
the handler answered. The key is always
`aspectName aspect + "/" + EncodeToString rs + "." + ext` with `rs` the bytes that
`rand.Read` returned and `ext` the second `/`-piece of the declared content type as
sent, the body is the staged content, and the record given to `UpdateVideo` is the
fetched one with `bucket,key` as reference. -/
inductive TailShape (env : Env) (bucket mtype media : String) (video : Video)
    (aspect p : String) (body : Bytes) : Outcome → List Event → Prop where
  | openFailed :
      TailShape env bucket mtype media video aspect p body
        (.respondWithError 500 "Couldn't open processed file") [.openFile p false]
  | randFailed :
      TailShape env bucket mtype media video aspect p body
        (.respondWithError 400 "Couldn't random") [.openFile p true, .randRead false]
  | splitFault (m : String) :
      TailShape env bucket mtype media video aspect p body (.panicked m)
        [.openFile p true, .randRead true]
  | putFailed (rs : { rs : Bytes // rs.length = 32 }) (ext key : String)
      (hrand : env.randRead = .ok rs)
      (hext : (Split mtype '/').get? 1 = some ext)
      (hkey : key = aspectName aspect ++ "/" ++ EncodeToString rs.val ++ "." ++ ext) :
      TailShape env bucket mtype media video aspect p body
        (.respondWithError 500 ("Couldn't put object in S3 bucket: " ++ bucket))
        [.openFile p true, .randRead true, .putObject bucket key body media false]
  | updateFailed (rs : { rs : Bytes // rs.length = 32 }) (ext key : String)
      (hrand : env.randRead = .ok rs)
      (hext : (Split mtype '/').get? 1 = some ext)
      (hkey : key = aspectName aspect ++ "/" ++ EncodeToString rs.val ++ "." ++ ext) :
      TailShape env bucket mtype media video aspect p body
        (.respondWithError 500 "Couldn't update db with video")
        [.openFile p true, .randRead true, .putObject bucket key body media true,
          .updateVideo { video with VideoURL := some (bucket ++ "," ++ key) } false]
  | signFailed (rs : { rs : Bytes // rs.length = 32 }) (ext key b k : String)
      (rest : List String) (e : String)
      (hrand : env.randRead = .ok rs)
      (hext : (Split mtype '/').get? 1 = some ext)
      (hkey : key = aspectName aspect ++ "/" ++ EncodeToString rs.val ++ "." ++ ext)
      (hsplit : Split (bucket ++ "," ++ key) ',' = b :: k :: rest)
      (hsign : env.presignGetObject b k (5 * Minute) = .error e) :
      TailShape env bucket mtype media video aspect p body
        (.respondWithError 500 "Couldn't generate presigned URL")
        [.openFile p true, .randRead true, .putObject bucket key body media true,
          .updateVideo { video with VideoURL := some (bucket ++ "," ++ key) } true,
          .presign b k (5 * Minute) false]
  | signed (rs : { rs : Bytes // rs.length = 32 }) (ext key b k : String)
      (rest : List String) (url : String)
      (hrand : env.randRead = .ok rs)
      (hext : (Split mtype '/').get? 1 = some ext)
      (hkey : key = aspectName aspect ++ "/" ++ EncodeToString rs.val ++ "." ++ ext)
      (hsplit : Split (bucket ++ "," ++ key) ',' = b :: k :: rest)
      (hsign : env.presignGetObject b k (5 * Minute) = .ok url) :
      TailShape env bucket mtype media video aspect p body
        (.respondWithJSON 200 { video with VideoURL := some url })
        [.openFile p true, .randRead true, .putObject bucket key body media true,
          .updateVideo { video with VideoURL := some (bucket ++ "," ++ key) } true,
          .presign b k (5 * Minute) true]

/-- What lines 85-160 can do once the temp file `t` exists: the calls made, in
order, and how the handler answered. -/
inductive StagedShape (env : Env) (bucket mtype media : String) (video : Video)
    (f : Bytes) (t : String) : Outcome → List Event → Prop where
  | copyFailed (n : Nat) :
      StagedShape env bucket mtype media video f t
        (.respondWithError 500 "Couldn't copy to temp file") [.copy t (f.take n) false]
  | inspectFailed (e : String) :
      StagedShape env bucket mtype media video f t
        (.respondWithError 500 "Couldn't get aspect ratio")
        [.copy t f true, .inspect t (.err e)]
  | inspectFault (m : String) :
      StagedShape env bucket mtype media video f t (.panicked m)
        [.copy t f true, .inspect t (.fault m)]
  | seekFailed (aspect : String) :
      StagedShape env bucket mtype media video f t
        (.respondWithError 500 "Couldn't reset tempfile pointer")
        [.copy t f true, .inspect t (.ok aspect), .seek t false]
  | remuxFailed (aspect : String) :
      StagedShape env bucket mtype media video f t
        (.respondWithError 500 "Couldn't process for fast start")
        [.copy t f true, .inspect t (.ok aspect), .seek t true, .remux t none]
  | remuxed (aspect : String) (out : Outcome) (evs : List Event)
      (htail : TailShape env bucket mtype media video aspect (t ++ ".processing") f out evs) :
      StagedShape env bucket mtype media video f t out
        ([.copy t f true, .inspect t (.ok aspect), .seek t true,
            .remux t (some (t ++ ".processing"))]
          ++ evs ++ [.remove (t ++ ".processing")])

/-- What a run of `handlerUploadVideo` can do: rejected before any call with an
effect, failed to create the temp file, or staged. -/
inductive RunShape (env : Env) (cfg : ApiConfig) (r : Request) :
    Outcome → List Event → Prop where
  | rejected (code : Nat) (msg : String) (hcode : code = 400 ∨ code = 401) :
      RunShape env cfg r (.respondWithError code msg) []
  | createFailed :
      RunShape env cfg r (.respondWithError 500 "Couldn't create temp file")
        [.createTemp none]
  | staged (id : String) (video : Video) (f : Bytes) (mtype t : String) (out : Outcome)
      (evs : List Event)
      (hid : env.uuidParse r.videoID = .ok id)
      (hvideo : env.getVideo id = .ok video)
      (hform : env.formFile r.Body "video" = .ok (f, mtype))
      (hmedia : env.parseMediaType mtype = .ok "video/mp4")
      (htemp : env.createTemp "" "tubely-upload.mp4" = .ok t)
      (hstaged : StagedShape env cfg.s3Bucket mtype "video/mp4" video f t out evs) :
      RunShape env cfg r out
        (.createTemp (some t) :: evs ++ [.remove "tubely-upload.mp4"])

/-! ## Concrete collaborators for the examples -/

/-- Values of `mime.ParseMediaType` on the headers used in the examples: the part
before the first `;` is lower-cased and trimmed, a quoted parameter value may hold a
comma, and a header without a type is an error. -/
def sampleParseMediaType (v : String) : Except String String :=
  if v = "video/mp4" then .ok "video/mp4"
  else if v = "VIDEO/MP4" then .ok "video/mp4"
  else if v = "video/mp4; a=\"x,y\"" then .ok "video/mp4"
  else if v = "video/webm" then .ok "video/webm"
  else if v = "image/png" then .ok "image/png"
  else if v = "image/gif" then .ok "image/gif"
  else .error "mime: no media type"

/-- A well-behaved set of collaborators: user `alice` owns every video, the upload
part is the whole body and declares `mtype` (it is spilled to disk when longer than
the memory limit), the probe reports `probe`, the remuxer behaves as `run`, and every
store call succeeds. -/
def sampleEnv (mtype : String) (probe : FFProbeOutput) (run : FfmpegRun) : Env where
  uuidParse := fun s => if s.length = 36 then .ok s else .error "invalid UUID length"
  getBearerToken := fun h =>
    match h.lookup "Authorization" with
    | some v => .ok v
    | none => .error "no auth header included in request"
  validateJWT := fun token _ => if token = "token-alice" then .ok "alice" else .error "invalid"
  getVideo := fun id => .ok { ID := id, UserID := "alice", ThumbnailURL := none, VideoURL := none }
  updateVideo := fun _ => none
  parseMultipartForm := fun _ _ => none
  formFile := fun body _ => .ok (body, mtype)
  formSpill := fun body maxMemory =>
    if maxMemory < body.length then [("/tmp/multipart-1234567", body)] else []
  parseMediaType := sampleParseMediaType
  createTemp := fun _ pattern => .ok ("/tmp/" ++ pattern ++ "1234567")
  osCreate := fun _ => none
  ioCopy := fun _ => none
  ffprobe := fun _ _ => .ok []
  jsonUnmarshal := fun _ => .ok probe
  seekStart := fun _ => none
  ffmpeg := fun _ _ _ => run
  osOpen := fun _ _ => none
  randRead := .ok ⟨List.range 32, by simp⟩
  putObject := fun _ _ _ _ => none
  presignGetObject := fun bucket key _ => .ok ("https://" ++ bucket ++ ".example/" ++ key ++ "?sig")
  pathJoin := fun a b => a ++ "/" ++ b

/-- A configuration with bucket `tubely`. -/
def sampleCfg : ApiConfig :=
  { jwtSecret := "secret", s3Bucket := "tubely", assetsRoot := "./assets", port := "8091" }

/-- A request by `alice` for one of her videos with the given body. -/
def sampleRequest (body : Bytes) : Request :=
  { videoID := "6b1e2b0e-3c1f-4a7e-9d55-0f2a4c8e1b7d", Header := [("Authorization", "token-alice")], Body := body }

/-- A probe output with one stream of the given display aspect ratio. -/
def sampleProbe (dar : String) : FFProbeOutput := { Streams := [{ DisplayAspectRatio := dar }] }

/-- A remuxer run that writes `data` and exits with status zero. -/
def sampleRemux (data : Bytes) : FfmpegRun := { written := some data, stderr := "", exitErr := none }

/-- A remuxer run that writes `data` and exits with a non-zero status. -/
def sampleRemuxFailed (data : Bytes) : FfmpegRun :=
  { written := some data, stderr := "moov atom not found", exitErr := some "exit status 1" }

/-- An empty filesystem. -/
def emptyFS : FS := fun _ => none

/-! ## Splitting and encoding -/

theorem splitChars_ne_nil (sep : Char) (l : List Char) : splitChars sep l ≠ [] := by
  induction l with
  | nil => simp [splitChars]
  | cons c cs ih =>
    unfold splitChars
    split
    · simp
    · split <;> simp

theorem splitChars_of_not_mem (sep : Char) (l : List Char) (h : sep ∉ l) :
    splitChars sep l = [l] := by
  induction l with
  | nil => simp [splitChars]
  | cons c cs ih =>
    have hc : c ≠ sep := fun e => h (by simp [e])
    have hcs : sep ∉ cs := fun e => h (by simp [e])
    simp [splitChars, hc, ih hcs]

theorem splitChars_append_sep (sep : Char) (a b : List Char) (h : sep ∉ a) :
    splitChars sep (a ++ sep :: b) = a :: splitChars sep b := by
  induction a with
  | nil => simp [splitChars]
  | cons c cs ih =>
    have hc : c ≠ sep := fun e => h (by simp [e])
    have hcs : sep ∉ cs := fun e => h (by simp [e])
    simp [splitChars, hc, ih hcs]

theorem splitChars_two (sep : Char) (a b : List Char) :
    ∃ x y rest, splitChars sep (a ++ sep :: b) = x :: y :: rest := by
  induction a with
  | nil =>
    obtain ⟨y, rest, h⟩ := List.exists_cons_of_ne_nil (splitChars_ne_nil sep b)
    exact ⟨[], y, rest, by simp [splitChars, h]⟩
  | cons c cs ih =>
    obtain ⟨x, y, rest, h⟩ := ih
    by_cases hc : c = sep
    · exact ⟨[], x, y :: rest, by simp [splitChars, hc, ← h]⟩
    · exact ⟨c :: x, y, rest, by simp [splitChars, hc, h]⟩

theorem splitChars_mem_subset (sep : Char) (l p : List Char) (hp : p ∈ splitChars sep l)
    (c : Char) (hc : c ∈ p) : c ∈ l := by
  induction l generalizing p with
  | nil => simp [splitChars] at hp; subst hp; simp at hc
  | cons d ds ih =>
    unfold splitChars at hp
    split at hp
    · rcases List.mem_cons.1 hp with h | h
      · subst h; simp at hc
      · exact List.mem_cons_of_mem _ (ih p h hc)
    · split at hp
      · rename_i hq
        exact absurd hq (splitChars_ne_nil sep ds)
      · rename_i q qs hq
        rcases List.mem_cons.1 hp with h | h
        · subst h
          rcases List.mem_cons.1 hc with h2 | h2
          · simp [h2]
          · exact List.mem_cons_of_mem _ (ih q (by simp [hq]) h2)
        · exact List.mem_cons_of_mem _ (ih p (by simp [hq, h]) hc)

theorem Split_two (a b : String) :
    ∃ x y rest, Split (a ++ "," ++ b) ',' = x :: y :: rest := by
  obtain ⟨x, y, rest, h⟩ := splitChars_two ',' a.toList b.toList
  refine ⟨String.mk x, String.mk y, rest.map String.mk, ?_⟩
  have h2 : splitChars ',' (a.data ++ ',' :: b.data) = x :: y :: rest := h
  simp [Split, h2]

theorem Split_comma (a b : String) (ha : ',' ∉ a.toList) (hb : ',' ∉ b.toList) :
    Split (a ++ "," ++ b) ',' = [a, b] := by
  have h := splitChars_append_sep ',' a.toList b.toList ha
  rw [splitChars_of_not_mem _ _ hb] at h
  have h2 : splitChars ',' (a.data ++ ',' :: b.data) = [a.data, b.data] := h
  simp [Split, h2]

theorem encodeChars_length (l : List Nat) : (encodeChars l).length = (l.length * 8 + 5) / 6 := by
  induction l using encodeChars.induct with
  | case1 a b c rest ih => simp [encodeChars, ih]; omega
  | case2 a b => simp [encodeChars]
  | case3 a => simp [encodeChars]
  | case4 => simp [encodeChars]

theorem b64Char_mem (n : Nat) : b64Char n ∈ encodeURL := by
  unfold b64Char
  have h : n % 64 < encodeURL.length := by
    have : encodeURL.length = 64 := by decide
    omega
  rw [List.getD_eq_getElem _ _ h]
  exact List.getElem_mem _

theorem encodeChars_mem (l : List Nat) (c : Char) (h : c ∈ encodeChars l) : c ∈ encodeURL := by
  induction l using encodeChars.induct with
  | case1 a b c rest ih =>
    simp only [encodeChars, List.mem_cons] at h
    rcases h with h | h | h | h | h
    · exact h ▸ b64Char_mem _
    · exact h ▸ b64Char_mem _
    · exact h ▸ b64Char_mem _
    · exact h ▸ b64Char_mem _
    · exact ih h
  | case2 a b =>
    simp only [encodeChars, List.mem_cons, List.mem_nil_iff, or_false] at h
    rcases h with h | h | h <;> exact h ▸ b64Char_mem _
  | case3 a =>
    simp only [encodeChars, List.mem_cons, List.mem_nil_iff, or_false] at h
    rcases h with h | h <;> exact h ▸ b64Char_mem _
  | case4 => simp [encodeChars] at h

theorem EncodeToString_length (rs : Bytes) (h : rs.length = 32) :
    (EncodeToString rs).length = 43 := by
  simp [EncodeToString, String.length, encodeChars_length, h]

theorem comma_not_mem_encodeURL : ',' ∉ encodeURL := by decide

theorem append_processing_ne (p : String) : p ++ ".processing" ≠ p := by
  intro h
  have := congrArg String.length h
  simp at this
  exact absurd this (by decide)

/-! ## The shape of a run -/

theorem dbVideoToSignedVideo_eq (env : Env) (video : Video) (w : World)
    (url b k : String) (rest : List String)
    (hurl : video.VideoURL = some url) (hsplit : Split url ',' = b :: k :: rest) :
    dbVideoToSignedVideo env video w =
      match env.presignGetObject b k (5 * Minute) with
      | .error e =>
        (.error ("failed to generate presigned URL: " ++ e),
          w.log (.presign b k (5 * Minute) false))
      | .ok presigned =>
        (.ok { video with VideoURL := some presigned },
          w.log (.presign b k (5 * Minute) true)) := by
  unfold dbVideoToSignedVideo generatePresignedURL
  simp only [hurl, hsplit]
  cases env.presignGetObject b k (5 * Minute) <;> rfl

theorem uploadProcessed_shape (env : Env) (cfg : ApiConfig) (video : Video)
    (mtype media aspect t processed : String) (w : World) :
    ∃ evs, (uploadProcessed env cfg video mtype media aspect t processed w).2.trace
        = w.trace ++ evs ∧
      (uploadProcessed env cfg video mtype media aspect t processed w).2.fs = w.fs ∧
      TailShape env cfg.s3Bucket mtype media video aspect processed ((w.fs t).getD [])
        (uploadProcessed env cfg video mtype media aspect t processed w).1 evs := by
  unfold uploadProcessed
  cases hopen : env.osOpen w.fs processed with
  | some e => exact ⟨_, by simp [World.log], rfl, .openFailed⟩
  | none =>
    simp only []
    cases hrand : env.randRead with
    | error e => exact ⟨_, by simp [World.log], rfl, .randFailed⟩
    | ok rs =>
      simp only []
      cases hext : (Split mtype '/').get? 1 with
      | none => exact ⟨_, by simp [World.log], rfl, .splitFault _⟩
      | some ext =>
        simp only []
        cases hput : env.putObject cfg.s3Bucket
            (aspectName aspect ++ "/" ++ EncodeToString rs.val ++ "." ++ ext)
            ((((w.log (.openFile processed true)).log (.randRead true)).fs t).getD [])
            media with
        | some e =>
          exact ⟨_, by simp [World.log], rfl, .putFailed rs ext _ hrand hext rfl⟩
        | none =>
          simp only []
          cases hupd : env.updateVideo { video with VideoURL := some (cfg.s3Bucket ++ "," ++
              (aspectName aspect ++ "/" ++ EncodeToString rs.val ++ "." ++ ext)) } with
          | some e =>
            exact ⟨_, by simp [World.log], rfl, .updateFailed rs ext _ hrand hext rfl⟩
          | none =>
            obtain ⟨b, k, rest, hsplit⟩ := Split_two cfg.s3Bucket
              (aspectName aspect ++ "/" ++ EncodeToString rs.val ++ "." ++ ext)
            simp only []
            rw [dbVideoToSignedVideo_eq env _ _ _ b k rest rfl hsplit]
            cases hsign : env.presignGetObject b k (5 * Minute) with
            | error e =>
              exact ⟨_, by simp [World.log], rfl,
                .signFailed rs ext _ b k rest e hrand hext rfl hsplit hsign⟩
            | ok url =>
              exact ⟨_, by simp [World.log], rfl,
                .signed rs ext _ b k rest url hrand hext rfl hsplit hsign⟩

theorem processVideoForFastStart_ok (env : Env) (fs : FS) (t p : String)
    (h : (processVideoForFastStart env fs t).1 = .ok p) :
    p = t ++ ".processing" ∧ (processVideoForFastStart env fs t).2 t = fs t := by
  unfold processVideoForFastStart at h ⊢
  simp only [] at h ⊢
  have hne : t ≠ t ++ ".processing" := fun e => append_processing_ne t e.symm
  constructor
  · repeat' split at h
    all_goals simp_all
  · cases env.ffmpeg fs t (t ++ ".processing") |>.written <;> repeat' split
    all_goals simp_all

theorem uploadStaged_shape (env : Env) (cfg : ApiConfig) (video : Video) (f : Bytes)
    (mtype media t : String) (w : World) :
    ∃ evs, (uploadStaged env cfg video f mtype media t w).2.trace = w.trace ++ evs ∧
      StagedShape env cfg.s3Bucket mtype media video f t
        (uploadStaged env cfg video f mtype media t w).1 evs := by
  unfold uploadStaged
  cases hcopy : env.ioCopy f with
  | some ne =>
    obtain ⟨n, e⟩ := ne
    exact ⟨_, by simp [World.log, World.write], .copyFailed n⟩
  | none =>
    simp only []
    cases hasp : getVideoAspectRatio env ((w.write t f).log (.copy t f true)).fs t with
    | err e => exact ⟨_, by simp [World.log, World.write], .inspectFailed e⟩
    | fault m => exact ⟨_, by simp [World.log, World.write], .inspectFault m⟩
    | ok aspect =>
      simp only []
      cases hseek : env.seekStart t with
      | some e => exact ⟨_, by simp [World.log, World.write], .seekFailed aspect⟩
      | none =>
        simp only []
        cases hp : processVideoForFastStart env
            ((((w.write t f).log (.copy t f true)).log (.inspect t (.ok aspect))).log
              (.seek t true)).fs t with
        | mk res fs3 =>
          cases res with
          | error e => exact ⟨_, by simp [World.log, World.write], .remuxFailed aspect⟩
          | ok processed =>
            have hok := processVideoForFastStart_ok env _ t processed (by rw [hp])
            rw [hp] at hok
            obtain ⟨hproc, hfs⟩ := hok
            subst hproc
            simp only []
            obtain ⟨evs, htr, hfs2, hshape⟩ := uploadProcessed_shape env cfg video mtype media
              aspect t (t ++ ".processing")
              (({ ((((w.write t f).log (.copy t f true)).log (.inspect t (.ok aspect))).log
                    (.seek t true)) with
                  fs := fs3 } : World).log (.remux t (some (t ++ ".processing"))))
            have hbody : fs3 t = some f := by
              have h2 : fs3 t = _ := hfs
              rw [h2]; simp [World.log, World.write]
            simp only [World.log, hbody, Option.getD_some] at hshape
            simp [World.log, World.write] at htr hshape
            refine ⟨_, ?_, .remuxed aspect _ evs ?_⟩
            · simp [World.remove, World.log, World.write, htr]
            · simpa [World.log, World.write] using hshape

theorem handlerUploadVideo_shape (env : Env) (cfg : ApiConfig) (r : Request) (fs : FS) :
    RunShape env cfg r (handlerUploadVideo env cfg r fs).1
      (handlerUploadVideo env cfg r fs).2.trace := by
  unfold handlerUploadVideo
  simp only []
  cases hid : env.uuidParse r.videoID with
  | error e => exact .rejected _ _ (Or.inl rfl)
  | ok id =>
    dsimp only
    cases htok : env.getBearerToken r.Header with
    | error e => exact .rejected _ _ (Or.inr rfl)
    | ok token =>
      dsimp only
      cases hjwt : env.validateJWT token cfg.jwtSecret with
      | error e => exact .rejected _ _ (Or.inr rfl)
      | ok userID =>
        dsimp only
        cases hvideo : env.getVideo id with
        | error e => exact .rejected _ _ (Or.inl rfl)
        | ok video =>
          dsimp only
          by_cases howner : video.UserID ≠ userID
          · rw [if_pos howner]; exact .rejected _ _ (Or.inr rfl)
          · rw [if_neg howner]
            cases hform : env.formFile r.Body "video" with
            | error e => exact .rejected _ _ (Or.inl rfl)
            | ok fm =>
              dsimp only
              obtain ⟨f, mtype⟩ := fm
              cases hparse : env.parseMediaType mtype with
              | error e => exact .rejected _ _ (Or.inl rfl)
              | ok media =>
                dsimp only
                by_cases hmedia : media ≠ "video/mp4"
                · rw [if_pos hmedia]; exact .rejected _ _ (Or.inl rfl)
                · rw [if_neg hmedia]
                  have hm : media = "video/mp4" := not_not.1 hmedia
                  subst hm
                  cases htemp : env.createTemp "" "tubely-upload.mp4" with
                  | error e => exact .createFailed
                  | ok t =>
                    dsimp only
                    obtain ⟨evs, htr, hshape⟩ := uploadStaged_shape env cfg video f mtype
                      "video/mp4" t
                      ((({ fs := spill fs (env.formSpill r.Body (32 <<< 20)), trace := [] }
                        : World).write t []).log (.createTemp (some t)))
                    simp only [World.log, World.write, List.nil_append] at htr hshape
                    have := RunShape.staged id video f mtype t _ evs hid hvideo hform hparse
                      htemp hshape
                    simp only [World.remove, World.log, World.write, List.nil_append]
                    rw [htr]
                    exact this

/-! ## Classification (C3, C10) -/

/-- C3: when the probe output parses and has at least one stream, the classification
used for the object key is `landscape` exactly when the first stream's
`display_aspect_ratio` is `16:9`, `portrait` exactly when it is `9:16`, and `other`
for every other value (the empty string of an absent field included); it is one of
these three strings and a function of that field alone. -/
theorem classification_of_first_stream (env : Env) (fs : FS) (filePath : String)
    (buf : Bytes) (s0 : Stream) (rest : List Stream)
    (hprobe : env.ffprobe fs filePath = .ok buf)
    (hjson : env.jsonUnmarshal buf = .ok { Streams := s0 :: rest }) :
    ∃ aspect, getVideoAspectRatio env fs filePath = .ok aspect ∧
      (aspectName aspect = "landscape" ↔ s0.DisplayAspectRatio = "16:9") ∧
      (aspectName aspect = "portrait" ↔ s0.DisplayAspectRatio = "9:16") ∧
      (s0.DisplayAspectRatio ≠ "16:9" → s0.DisplayAspectRatio ≠ "9:16" →
        aspectName aspect = "other") ∧
      (s0.DisplayAspectRatio = "" → aspectName aspect = "other") ∧
      (aspectName aspect = "landscape" ∨ aspectName aspect = "portrait" ∨
        aspectName aspect = "other") ∧
      aspectName aspect = aspectName s0.DisplayAspectRatio := by
  unfold getVideoAspectRatio
  simp only [hprobe, hjson]
  by_cases h1 : s0.DisplayAspectRatio = "16:9"
  · refine ⟨s0.DisplayAspectRatio, by simp [h1], ?_⟩
    simp [h1, aspectName]
  · by_cases h2 : s0.DisplayAspectRatio = "9:16"
    · refine ⟨s0.DisplayAspectRatio, by simp [h2], ?_⟩
      simp [h2, aspectName]
    · refine ⟨"other", by simp [h1, h2], ?_⟩
      simp [h1, h2, aspectName]

/-- C3 at a concrete probe output: a first stream declaring `16:9`, followed by a
second stream declaring `9:16`. -/
theorem classification_of_first_stream_witness :
    ∃ aspect,
      getVideoAspectRatio
          (sampleEnv "video/mp4" { Streams := [⟨"16:9"⟩, ⟨"9:16"⟩] } (sampleRemux [0]))
          emptyFS "/tmp/in.mp4" = .ok aspect ∧
      (aspectName aspect = "landscape" ↔ ("16:9" : String) = "16:9") ∧
      (aspectName aspect = "portrait" ↔ ("16:9" : String) = "9:16") ∧
      (("16:9" : String) ≠ "16:9" → ("16:9" : String) ≠ "9:16" →
        aspectName aspect = "other") ∧
      (("16:9" : String) = "" → aspectName aspect = "other") ∧
      (aspectName aspect = "landscape" ∨ aspectName aspect = "portrait" ∨
        aspectName aspect = "other") ∧
      aspectName aspect = aspectName "16:9" :=
  classification_of_first_stream
    (sampleEnv "video/mp4" { Streams := [⟨"16:9"⟩, ⟨"9:16"⟩] } (sampleRemux [0]))
    emptyFS "/tmp/in.mp4" [] ⟨"16:9"⟩ [⟨"9:16"⟩] rfl rfl

/-- C10: when the probe output parses and its stream list is empty,
`getVideoAspectRatio` faults on `s.Streams[0]`: it returns neither a classification
nor an error value. -/
theorem getVideoAspectRatio_no_streams (env : Env) (fs : FS) (filePath : String)
    (buf : Bytes)
    (hprobe : env.ffprobe fs filePath = .ok buf)
    (hjson : env.jsonUnmarshal buf = .ok { Streams := [] }) :
    (∃ m, getVideoAspectRatio env fs filePath = .fault m) ∧
      (∀ aspect, getVideoAspectRatio env fs filePath ≠ .ok aspect) ∧
      (∀ e, getVideoAspectRatio env fs filePath ≠ .err e) := by
  unfold getVideoAspectRatio
  simp [hprobe, hjson]

/-- C10 at a concrete probe output with no stream. -/
theorem getVideoAspectRatio_no_streams_witness :
    (∃ m, getVideoAspectRatio (sampleEnv "video/mp4" { Streams := [] } (sampleRemux [0]))
        emptyFS "/tmp/in.mp4" = .fault m) ∧
      (∀ aspect, getVideoAspectRatio (sampleEnv "video/mp4" { Streams := [] } (sampleRemux [0]))
        emptyFS "/tmp/in.mp4" ≠ .ok aspect) ∧
      (∀ e, getVideoAspectRatio (sampleEnv "video/mp4" { Streams := [] } (sampleRemux [0]))
        emptyFS "/tmp/in.mp4" ≠ .err e) :=
  getVideoAspectRatio_no_streams
    (sampleEnv "video/mp4" { Streams := [] } (sampleRemux [0])) emptyFS "/tmp/in.mp4" []
    rfl rfl

/-! ## What is uploaded and what is left on disk (C1, C2, C5) -/

/-- C1 fails on the code: in the run of a valid 16:9 upload with staged content
`[1, 2, 3]` whose remux produced `[9, 9]`, the remuxer returned the path
`….processing` holding `[9, 9]`, and the body given to `PutObject` is the staged
content `[1, 2, 3]`, not the remuxed content. -/
theorem putObject_body_is_staged_file :
    (processVideoForFastStart (sampleEnv "video/mp4" (sampleProbe "16:9") (sampleRemux [9, 9]))
        (fun q => if q = "/tmp/tubely-upload.mp41234567" then some [1, 2, 3] else none)
        "/tmp/tubely-upload.mp41234567").1
      = .ok "/tmp/tubely-upload.mp41234567.processing" ∧
    (processVideoForFastStart (sampleEnv "video/mp4" (sampleProbe "16:9") (sampleRemux [9, 9]))
        (fun q => if q = "/tmp/tubely-upload.mp41234567" then some [1, 2, 3] else none)
        "/tmp/tubely-upload.mp41234567").2 "/tmp/tubely-upload.mp41234567.processing"
      = some [9, 9] ∧
    (handlerUploadVideo (sampleEnv "video/mp4" (sampleProbe "16:9") (sampleRemux [9, 9]))
        sampleCfg (sampleRequest [1, 2, 3]) emptyFS).2.trace.filter Event.isPutObject
      = [.putObject "tubely" "landscape/AAECAwQFBgcICQoLDA0ODxAREhMUFRYXGBkaGxwdHh8.mp4"
          [1, 2, 3] "video/mp4" true] :=
  ⟨rfl, rfl, by decide⟩

/-- C2 fails on the code: after a successful run the staged file is still on disk
(the deferred `os.Remove` names `"tubely-upload.mp4"`, not the path returned by
`os.CreateTemp`), and after a run whose remuxer wrote its output and exited non-zero
both the staged file and the `.processing` file are still on disk. -/
theorem temp_files_left_on_disk :
    (handlerUploadVideo (sampleEnv "video/mp4" (sampleProbe "16:9") (sampleRemux [9, 9]))
        sampleCfg (sampleRequest [1, 2, 3]) emptyFS).1.isError = false ∧
    (handlerUploadVideo (sampleEnv "video/mp4" (sampleProbe "16:9") (sampleRemux [9, 9]))
        sampleCfg (sampleRequest [1, 2, 3]) emptyFS).2.fs "/tmp/tubely-upload.mp41234567"
      = some [1, 2, 3] ∧
    (handlerUploadVideo (sampleEnv "video/mp4" (sampleProbe "16:9") (sampleRemuxFailed [9, 9]))
        sampleCfg (sampleRequest [1, 2, 3]) emptyFS).1
      = .respondWithError 500 "Couldn't process for fast start" ∧
    (handlerUploadVideo (sampleEnv "video/mp4" (sampleProbe "16:9") (sampleRemuxFailed [9, 9]))
        sampleCfg (sampleRequest [1, 2, 3]) emptyFS).2.fs "/tmp/tubely-upload.mp41234567"
      = some [1, 2, 3] ∧
    (handlerUploadVideo (sampleEnv "video/mp4" (sampleProbe "16:9") (sampleRemuxFailed [9, 9]))
        sampleCfg (sampleRequest [1, 2, 3]) emptyFS).2.fs
        "/tmp/tubely-upload.mp41234567.processing"
      = some [9, 9] := by
  decide

/-- C5 fails on the code: the reader made by `http.MaxBytesReader` is dropped, so for
every body longer than `1 << 30` bytes (which that reader would refuse) a run whose
collaborators succeed copies the whole body into the staged file, calls `PutObject`
with all of it, updates the Video Record and answers 200. -/
theorem oversized_body_is_staged_and_uploaded (body : Bytes)
    (hlong : 1 <<< 30 < body.length) :
    MaxBytesReader (sampleRequest body).Body (1 <<< 30)
      = .error "http: request body too large" ∧
    (handlerUploadVideo (sampleEnv "video/mp4" (sampleProbe "16:9") (sampleRemux [9, 9]))
        sampleCfg (sampleRequest body) emptyFS).2.trace
      = [.createTemp (some "/tmp/tubely-upload.mp41234567"),
         .copy "/tmp/tubely-upload.mp41234567" body true,
         .inspect "/tmp/tubely-upload.mp41234567" (.ok "16:9"),
         .seek "/tmp/tubely-upload.mp41234567" true,
         .remux "/tmp/tubely-upload.mp41234567" (some "/tmp/tubely-upload.mp41234567.processing"),
         .openFile "/tmp/tubely-upload.mp41234567.processing" true,
         .randRead true,
         .putObject "tubely" "landscape/AAECAwQFBgcICQoLDA0ODxAREhMUFRYXGBkaGxwdHh8.mp4" body
           "video/mp4" true,
         .updateVideo
           { ID := "6b1e2b0e-3c1f-4a7e-9d55-0f2a4c8e1b7d", UserID := "alice", ThumbnailURL := none,
             VideoURL := some "tubely,landscape/AAECAwQFBgcICQoLDA0ODxAREhMUFRYXGBkaGxwdHh8.mp4" }
           true,
         .presign "tubely" "landscape/AAECAwQFBgcICQoLDA0ODxAREhMUFRYXGBkaGxwdHh8.mp4"
           (5 * Minute) true,
         .remove "/tmp/tubely-upload.mp41234567.processing",
         .remove "tubely-upload.mp4"] ∧
    (handlerUploadVideo (sampleEnv "video/mp4" (sampleProbe "16:9") (sampleRemux [9, 9]))
        sampleCfg (sampleRequest body) emptyFS).2.fs "/tmp/tubely-upload.mp41234567"
      = some body ∧
    (handlerUploadVideo (sampleEnv "video/mp4" (sampleProbe "16:9") (sampleRemux [9, 9]))
        sampleCfg (sampleRequest body) emptyFS).1.isError = false := by
  refine ⟨?_, rfl, rfl, rfl⟩
  have h : ¬ body.length ≤ 1 <<< 30 := Nat.not_le.2 hlong
  simp only [MaxBytesReader, sampleRequest, if_neg h]

/-- C5 at a concrete body of `(1 << 30) + 1` zero bytes. -/
theorem oversized_body_is_staged_and_uploaded_witness :
    1 <<< 30 < (List.replicate (1 <<< 30 + 1) 0).length ∧
    (handlerUploadVideo (sampleEnv "video/mp4" (sampleProbe "16:9") (sampleRemux [9, 9]))
        sampleCfg (sampleRequest (List.replicate (1 <<< 30 + 1) 0)) emptyFS).2.fs
        "/tmp/tubely-upload.mp41234567"
      = some (List.replicate (1 <<< 30 + 1) 0) :=
  ⟨(List.length_replicate (1 <<< 30 + 1) 0).symm ▸ Nat.lt_succ_self _,
    (oversized_body_is_staged_and_uploaded (List.replicate (1 <<< 30 + 1) 0)
      ((List.length_replicate (1 <<< 30 + 1) 0).symm ▸ Nat.lt_succ_self _)).2.2.1⟩

/-! ## The object key (C4) -/

theorem aspectName_cases (aspect : String) :
    aspectName aspect = "landscape" ∨ aspectName aspect = "portrait" ∨
      aspectName aspect = "other" := by
  unfold aspectName
  split
  · exact Or.inl rfl
  · split
    · exact Or.inr (Or.inl rfl)
    · exact Or.inr (Or.inr rfl)

theorem Split_video_mp4 : (Split "video/mp4" '/').get? 1 = some "mp4" := by decide

/-- C4 as stated fails: for the declared header `VIDEO/MP4`, which
`mime.ParseMediaType` parses to `video/mp4`, the run reaches `PutObject` with the key
`landscape/AAE…Hh8.MP4`, and no key of the form `<classification>/<encoding>.mp4` equals
it. -/
theorem object_key_extension_follows_raw_header :
    sampleParseMediaType "VIDEO/MP4" = .ok "video/mp4" ∧
    (handlerUploadVideo (sampleEnv "VIDEO/MP4" (sampleProbe "16:9") (sampleRemux [9, 9]))
        sampleCfg (sampleRequest [1, 2, 3]) emptyFS).2.trace.filter Event.isPutObject
      = [.putObject "tubely" "landscape/AAECAwQFBgcICQoLDA0ODxAREhMUFRYXGBkaGxwdHh8.MP4"
          [1, 2, 3] "video/mp4" true] ∧
    ¬ ∃ classification encoding : String,
      "landscape/AAECAwQFBgcICQoLDA0ODxAREhMUFRYXGBkaGxwdHh8.MP4"
        = classification ++ "/" ++ encoding ++ ".mp4" := by
  refine ⟨rfl, by decide, ?_⟩
  rintro ⟨c, e, h⟩
  have h2 := congrArg (fun s : String => s.data.reverse.take 4) h
  simp at h2

/-- C4, amended: every key given to `PutObject` is
`<classification>/<encoding>.<ext>` where the classification is `aspectName` of the
ratio that the run's inspection returned (one of `landscape`, `portrait`, `other`),
the encoding is the 43-character unpadded URL-safe base64 text of the 32 bytes that
`rand.Read` returned, and `ext` is the piece of the declared `Content-Type` header, as
sent, between its first and second `/` (the header itself parses to `video/mp4`);
when the header is exactly `video/mp4` the key ends in `.mp4`. -/
theorem object_key_format (env : Env) (cfg : ApiConfig) (r : Request) (fs : FS)
    (bucket key : String) (body : Bytes) (contentType : String) (ok : Bool)
    (hput : Event.putObject bucket key body contentType ok
      ∈ (handlerUploadVideo env cfg r fs).2.trace) :
    ∃ (f : Bytes) (mtype t aspect : String) (rs : { rs : Bytes // rs.length = 32 })
        (ext : String),
      env.formFile r.Body "video" = .ok (f, mtype) ∧
      env.parseMediaType mtype = .ok "video/mp4" ∧
      Event.inspect t (.ok aspect) ∈ (handlerUploadVideo env cfg r fs).2.trace ∧
      env.randRead = .ok rs ∧
      rs.val.length = 32 ∧
      (EncodeToString rs.val).length = 43 ∧
      (Split mtype '/').get? 1 = some ext ∧
      key = aspectName aspect ++ "/" ++ EncodeToString rs.val ++ "." ++ ext ∧
      (aspectName aspect = "landscape" ∨ aspectName aspect = "portrait" ∨
        aspectName aspect = "other") ∧
      (mtype = "video/mp4" →
        key = aspectName aspect ++ "/" ++ EncodeToString rs.val ++ ".mp4") := by
  have hshape := handlerUploadVideo_shape env cfg r fs
  generalize (handlerUploadVideo env cfg r fs).1 = out at hshape
  generalize (handlerUploadVideo env cfg r fs).2.trace = tr at hshape hput ⊢
  have fin : ∀ (f : Bytes) (mtype t aspect : String) (rs : { rs : Bytes // rs.length = 32 })
      (ext : String),
      env.formFile r.Body "video" = .ok (f, mtype) →
      env.parseMediaType mtype = .ok "video/mp4" →
      Event.inspect t (.ok aspect) ∈ tr →
      env.randRead = .ok rs → (Split mtype '/').get? 1 = some ext →
      key = aspectName aspect ++ "/" ++ EncodeToString rs.val ++ "." ++ ext →
      ∃ (f : Bytes) (mtype t aspect : String) (rs : { rs : Bytes // rs.length = 32 })
          (ext : String),
        env.formFile r.Body "video" = .ok (f, mtype) ∧
        env.parseMediaType mtype = .ok "video/mp4" ∧
        Event.inspect t (.ok aspect) ∈ tr ∧
        env.randRead = .ok rs ∧
        rs.val.length = 32 ∧
        (EncodeToString rs.val).length = 43 ∧
        (Split mtype '/').get? 1 = some ext ∧
        key = aspectName aspect ++ "/" ++ EncodeToString rs.val ++ "." ++ ext ∧
        (aspectName aspect = "landscape" ∨ aspectName aspect = "portrait" ∨
          aspectName aspect = "other") ∧
        (mtype = "video/mp4" →
          key = aspectName aspect ++ "/" ++ EncodeToString rs.val ++ ".mp4") := by
    intro f mtype t aspect rs ext hform hmedia hins hrand hext hk
    refine ⟨f, mtype, t, aspect, rs, ext, hform, hmedia, hins, hrand, rs.property,
      EncodeToString_length rs.val rs.property, hext, hk, aspectName_cases aspect, ?_⟩
    intro hm
    subst hm
    rw [Split_video_mp4] at hext
    cases hext
    rw [hk]
    exact String.append_assoc _ _ _
  cases hshape with
  | rejected code msg hcode => simp at hput
  | createFailed => simp at hput
  | staged id video f mtype t out evs hid hvideo hform hmedia htemp hstaged =>
    cases hstaged with
    | copyFailed n => simp at hput
    | inspectFailed e => simp at hput
    | inspectFault m => simp at hput
    | seekFailed aspect => simp at hput
    | remuxFailed aspect => simp at hput
    | remuxed aspect out evs htail =>
      cases htail with
      | openFailed => simp at hput
      | randFailed => simp at hput
      | splitFault m => simp at hput
      | putFailed rs ext key2 hrand hext hkey =>
        simp at hput
        obtain ⟨_, hk, _, _, _⟩ := hput
        exact fin f mtype t aspect rs ext hform hmedia (by simp) hrand hext (hk.trans hkey)
      | updateFailed rs ext key2 hrand hext hkey =>
        simp at hput
        obtain ⟨_, hk, _, _, _⟩ := hput
        exact fin f mtype t aspect rs ext hform hmedia (by simp) hrand hext (hk.trans hkey)
      | signFailed rs ext key2 b k rest e hrand hext hkey hsplit hsign =>
        simp at hput
        obtain ⟨_, hk, _, _, _⟩ := hput
        exact fin f mtype t aspect rs ext hform hmedia (by simp) hrand hext (hk.trans hkey)
      | signed rs ext key2 b k rest url hrand hext hkey hsplit hsign =>
        simp at hput
        obtain ⟨_, hk, _, _, _⟩ := hput
        exact fin f mtype t aspect rs ext hform hmedia (by simp) hrand hext (hk.trans hkey)

/-- C4, amended, at the run of a valid 16:9 upload declaring `video/mp4`. -/
theorem object_key_format_witness :
    ∃ (f : Bytes) (mtype t aspect : String) (rs : { rs : Bytes // rs.length = 32 })
        (ext : String),
      (sampleEnv "video/mp4" (sampleProbe "16:9") (sampleRemux [9, 9])).formFile
        (sampleRequest [1, 2, 3]).Body "video" = .ok (f, mtype) ∧
      (sampleEnv "video/mp4" (sampleProbe "16:9") (sampleRemux [9, 9])).parseMediaType mtype
        = .ok "video/mp4" ∧
      Event.inspect t (.ok aspect)
        ∈ (handlerUploadVideo (sampleEnv "video/mp4" (sampleProbe "16:9") (sampleRemux [9, 9]))
            sampleCfg (sampleRequest [1, 2, 3]) emptyFS).2.trace ∧
      (sampleEnv "video/mp4" (sampleProbe "16:9") (sampleRemux [9, 9])).randRead = .ok rs ∧
      rs.val.length = 32 ∧
      (EncodeToString rs.val).length = 43 ∧
      (Split mtype '/').get? 1 = some ext ∧
      "landscape/AAECAwQFBgcICQoLDA0ODxAREhMUFRYXGBkaGxwdHh8.mp4"
        = aspectName aspect ++ "/" ++ EncodeToString rs.val ++ "." ++ ext ∧
      (aspectName aspect = "landscape" ∨ aspectName aspect = "portrait" ∨
        aspectName aspect = "other") ∧
      (mtype = "video/mp4" → "landscape/AAECAwQFBgcICQoLDA0ODxAREhMUFRYXGBkaGxwdHh8.mp4"
        = aspectName aspect ++ "/" ++ EncodeToString rs.val ++ ".mp4") :=
  object_key_format (sampleEnv "video/mp4" (sampleProbe "16:9") (sampleRemux [9, 9]))
    sampleCfg (sampleRequest [1, 2, 3]) emptyFS "tubely"
    "landscape/AAECAwQFBgcICQoLDA0ODxAREhMUFRYXGBkaGxwdHh8.mp4" [1, 2, 3] "video/mp4" true
    (by decide)

/-! ## Rejection at the content-type check (C6) -/

theorem rejected_upload_is_spilled (body : Bytes) (hbig : 32 <<< 20 < body.length) :
    (handlerUploadVideo (sampleEnv "video/webm" (sampleProbe "16:9") (sampleRemux [9, 9]))
        sampleCfg (sampleRequest body) emptyFS).1
      = .respondWithError 400 "Wrong media type" ∧
    (handlerUploadVideo (sampleEnv "video/webm" (sampleProbe "16:9") (sampleRemux [9, 9]))
        sampleCfg (sampleRequest body) emptyFS).2.fs "/tmp/multipart-1234567"
      = some body := by
  refine ⟨rfl, ?_⟩
  show spill emptyFS (if 32 <<< 20 < body.length then [("/tmp/multipart-1234567", body)]
    else []) "/tmp/multipart-1234567" = some body
  rw [if_pos hbig]
  rfl

/-- C6 as stated fails in two ways. A part declaring `video/webm` (or `image/gif` for
a thumbnail) sent without an `Authorization` header is answered 401 by the token
check, not 400. And a part declaring `video/webm` that is longer than the 32 MiB
memory limit of `r.FormFile` is answered 400 after the multipart reader has written
it to a file in the temp directory. -/
theorem content_type_rejection_not_always_400_nor_diskless :
    (sampleEnv "video/webm" (sampleProbe "16:9") (sampleRemux [9, 9])).formFile [1, 2, 3] "video"
      = .ok ([1, 2, 3], "video/webm") ∧
    sampleParseMediaType "video/webm" = .ok "video/webm" ∧
    (handlerUploadVideo (sampleEnv "video/webm" (sampleProbe "16:9") (sampleRemux [9, 9]))
        sampleCfg { videoID := "6b1e2b0e-3c1f-4a7e-9d55-0f2a4c8e1b7d", Header := [], Body := [1, 2, 3] } emptyFS).1
      = .respondWithError 401 "Couldn't find JWT" ∧
    sampleParseMediaType "image/gif" = .ok "image/gif" ∧
    (handlerUploadThumbnail (sampleEnv "image/gif" (sampleProbe "16:9") (sampleRemux [9, 9]))
        sampleCfg { videoID := "6b1e2b0e-3c1f-4a7e-9d55-0f2a4c8e1b7d", Header := [], Body := [1, 2, 3] } emptyFS).1
      = .respondWithError 401 "Couldn't find JWT" ∧
    32 <<< 20 < (List.replicate (32 <<< 20 + 1) 0).length ∧
    emptyFS "/tmp/multipart-1234567" = none ∧
    (handlerUploadVideo (sampleEnv "video/webm" (sampleProbe "16:9") (sampleRemux [9, 9]))
        sampleCfg (sampleRequest (List.replicate (32 <<< 20 + 1) 0)) emptyFS).1
      = .respondWithError 400 "Wrong media type" ∧
    (handlerUploadVideo (sampleEnv "video/webm" (sampleProbe "16:9") (sampleRemux [9, 9]))
        sampleCfg (sampleRequest (List.replicate (32 <<< 20 + 1) 0)) emptyFS).2.fs
        "/tmp/multipart-1234567"
      = some (List.replicate (32 <<< 20 + 1) 0) :=
  ⟨rfl, rfl, by decide, rfl, by decide,
    (List.length_replicate (32 <<< 20 + 1) 0).symm ▸ Nat.lt_succ_self _, rfl,
    (rejected_upload_is_spilled (List.replicate (32 <<< 20 + 1) 0)
      ((List.length_replicate (32 <<< 20 + 1) 0).symm ▸ Nat.lt_succ_self _)).1,
    (rejected_upload_is_spilled (List.replicate (32 <<< 20 + 1) 0)
      ((List.length_replicate (32 <<< 20 + 1) 0).symm ▸ Nat.lt_succ_self _)).2⟩

/-- C6, amended: when the declared content type of the uploaded part does not parse,
or parses to a media type outside the accepted set (`video/mp4` for
`handlerUploadVideo`; `image/jpg` and `image/png` for `handlerUploadThumbnail`), the
handler answers with a client error and makes none of its calls with an effect: no
`os.CreateTemp`, `os.Create` or `io.Copy`, no `PutObject`, no `UpdateVideo`. The
answer is the 400 of the content-type check when the request passed the checks that
come before it, and the 400 or 401 of the earlier check otherwise. The filesystem is
left as it was, except for the files that the multipart reader spilled while the form
was read. -/
theorem unaccepted_content_type_rejected (env : Env) (cfg : ApiConfig) (r : Request)
    (fs : FS) :
    (∀ (f : Bytes) (mtype : String), env.formFile r.Body "video" = .ok (f, mtype) →
      env.parseMediaType mtype ≠ .ok "video/mp4" →
      (handlerUploadVideo env cfg r fs).2.trace = [] ∧
      ((handlerUploadVideo env cfg r fs).2.fs = fs ∨
        (handlerUploadVideo env cfg r fs).2.fs = spill fs (env.formSpill r.Body (32 <<< 20))) ∧
      (∃ code msg, (handlerUploadVideo env cfg r fs).1 = .respondWithError code msg ∧
        (code = 400 ∨ code = 401)) ∧
      ((∃ id token video, env.uuidParse r.videoID = .ok id ∧
          env.getBearerToken r.Header = .ok token ∧
          env.validateJWT token cfg.jwtSecret = .ok video.UserID ∧
          env.getVideo id = .ok video) →
        ((handlerUploadVideo env cfg r fs).1
            = .respondWithError 400 "Couldn't parse mediatype" ∨
          (handlerUploadVideo env cfg r fs).1 = .respondWithError 400 "Wrong media type") ∧
        (handlerUploadVideo env cfg r fs).2.fs
          = spill fs (env.formSpill r.Body (32 <<< 20)))) ∧
    (∀ (f : Bytes) (mtype : String), env.formFile r.Body "thumbnail" = .ok (f, mtype) →
      env.parseMediaType mtype ≠ .ok "image/jpg" →
      env.parseMediaType mtype ≠ .ok "image/png" →
      (handlerUploadThumbnail env cfg r fs).2.trace = [] ∧
      ((handlerUploadThumbnail env cfg r fs).2.fs = fs ∨
        (handlerUploadThumbnail env cfg r fs).2.fs
          = spill fs (env.formSpill r.Body (10 <<< 20))) ∧
      (∃ code msg, (handlerUploadThumbnail env cfg r fs).1 = .respondWithError code msg ∧
        (code = 400 ∨ code = 401)) ∧
      ((∃ id token userID, env.uuidParse r.videoID = .ok id ∧
          env.getBearerToken r.Header = .ok token ∧
          env.validateJWT token cfg.jwtSecret = .ok userID ∧
          env.parseMultipartForm r.Body (10 <<< 20) = none) →
        ((handlerUploadThumbnail env cfg r fs).1
            = .respondWithError 400 "Couldn't parse mediatype" ∨
          (handlerUploadThumbnail env cfg r fs).1
            = .respondWithError 400 "Wrong media type") ∧
        (handlerUploadThumbnail env cfg r fs).2.fs
          = spill fs (env.formSpill r.Body (10 <<< 20)))) := by
  constructor
  · intro f mtype hform hbad
    unfold handlerUploadVideo
    dsimp only
    cases hid : env.uuidParse r.videoID with
    | error e =>
      exact ⟨rfl, Or.inl rfl, ⟨_, _, rfl, Or.inl rfl⟩, fun ⟨_, _, _, h, _⟩ => by simp at h⟩
    | ok id =>
      dsimp only
      cases htok : env.getBearerToken r.Header with
      | error e =>
        exact ⟨rfl, Or.inl rfl, ⟨_, _, rfl, Or.inr rfl⟩,
          fun ⟨_, _, _, _, h, _⟩ => by simp at h⟩
      | ok token =>
        dsimp only
        cases hjwt : env.validateJWT token cfg.jwtSecret with
        | error e =>
          refine ⟨rfl, Or.inl rfl, ⟨_, _, rfl, Or.inr rfl⟩, ?_⟩
          rintro ⟨id2, token2, video2, -, h2, h3, -⟩
          cases h2
          rw [hjwt] at h3
          cases h3
        | ok userID =>
          dsimp only
          cases hvideo : env.getVideo id with
          | error e =>
            refine ⟨rfl, Or.inl rfl, ⟨_, _, rfl, Or.inl rfl⟩, ?_⟩
            rintro ⟨id2, token2, video2, h1, -, -, h4⟩
            cases h1
            rw [hvideo] at h4
            cases h4
          | ok video =>
            dsimp only
            by_cases howner : video.UserID ≠ userID
            · rw [if_pos howner]
              refine ⟨rfl, Or.inl rfl, ⟨_, _, rfl, Or.inr rfl⟩, ?_⟩
              rintro ⟨id2, token2, video2, h1, h2, h3, h4⟩
              cases h1
              cases h2
              rw [hvideo] at h4
              cases h4
              rw [hjwt] at h3
              cases h3
              exact absurd rfl howner
            · rw [if_neg howner, hform]
              dsimp only
              cases hparse : env.parseMediaType mtype with
              | error e =>
                exact ⟨rfl, Or.inr rfl, ⟨_, _, rfl, Or.inl rfl⟩, fun _ => ⟨Or.inl rfl, rfl⟩⟩
              | ok media =>
                dsimp only
                have hm : media ≠ "video/mp4" := fun h => hbad (by rw [hparse, h])
                rw [if_pos hm]
                exact ⟨rfl, Or.inr rfl, ⟨_, _, rfl, Or.inl rfl⟩, fun _ => ⟨Or.inr rfl, rfl⟩⟩
  · intro f mtype hform hjpg hpng
    unfold handlerUploadThumbnail
    dsimp only
    cases hid : env.uuidParse r.videoID with
    | error e =>
      exact ⟨rfl, Or.inl rfl, ⟨_, _, rfl, Or.inl rfl⟩, fun ⟨_, _, _, h, _⟩ => by simp at h⟩
    | ok id =>
      dsimp only
      cases htok : env.getBearerToken r.Header with
      | error e =>
        exact ⟨rfl, Or.inl rfl, ⟨_, _, rfl, Or.inr rfl⟩,
          fun ⟨_, _, _, _, h, _⟩ => by simp at h⟩
      | ok token =>
        dsimp only
        cases hjwt : env.validateJWT token cfg.jwtSecret with
        | error e =>
          refine ⟨rfl, Or.inl rfl, ⟨_, _, rfl, Or.inr rfl⟩, ?_⟩
          rintro ⟨id2, token2, user2, -, h2, h3, -⟩
          cases h2
          rw [hjwt] at h3
          cases h3
        | ok userID =>
          dsimp only
          cases hmp : env.parseMultipartForm r.Body (10 <<< 20) with
          | some e =>
            exact ⟨rfl, Or.inr rfl, ⟨_, _, rfl, Or.inl rfl⟩,
              fun ⟨_, _, _, _, _, _, h⟩ => by simp at h⟩
          | none =>
            dsimp only
            rw [hform]
            dsimp only
            cases hparse : env.parseMediaType mtype with
            | error e =>
              exact ⟨rfl, Or.inr rfl, ⟨_, _, rfl, Or.inl rfl⟩, fun _ => ⟨Or.inl rfl, rfl⟩⟩
            | ok media =>
              dsimp only
              have hm : media ≠ "image/jpg" ∧ media ≠ "image/png" :=
                ⟨fun h => hjpg (by rw [hparse, h]), fun h => hpng (by rw [hparse, h])⟩
              rw [if_pos hm]
              exact ⟨rfl, Or.inr rfl, ⟨_, _, rfl, Or.inl rfl⟩, fun _ => ⟨Or.inr rfl, rfl⟩⟩

/-- C6, amended, at two concrete uploads by the owner: a part declaring `video/webm`
sent to the video handler and a part declaring `image/gif` sent to the thumbnail
handler. -/
theorem unaccepted_content_type_rejected_witness :
    ((handlerUploadVideo (sampleEnv "video/webm" (sampleProbe "16:9") (sampleRemux [9, 9]))
        sampleCfg (sampleRequest [1, 2, 3]) emptyFS).2.trace = [] ∧
      (handlerUploadVideo (sampleEnv "video/webm" (sampleProbe "16:9") (sampleRemux [9, 9]))
        sampleCfg (sampleRequest [1, 2, 3]) emptyFS).1
        = .respondWithError 400 "Wrong media type") ∧
    ((handlerUploadThumbnail (sampleEnv "image/gif" (sampleProbe "16:9") (sampleRemux [9, 9]))
        sampleCfg (sampleRequest [1, 2, 3]) emptyFS).2.trace = [] ∧
      (handlerUploadThumbnail (sampleEnv "image/gif" (sampleProbe "16:9") (sampleRemux [9, 9]))
        sampleCfg (sampleRequest [1, 2, 3]) emptyFS).1
        = .respondWithError 400 "Wrong media type") :=
  ⟨⟨((unaccepted_content_type_rejected
        (sampleEnv "video/webm" (sampleProbe "16:9") (sampleRemux [9, 9]))
        sampleCfg (sampleRequest [1, 2, 3]) emptyFS).1 [1, 2, 3] "video/webm" rfl
        (fun h => absurd (Except.ok.inj
          (h : (Except.ok "video/webm" : Except String String) = .ok "video/mp4"))
          (by decide))).1, by decide⟩,
    ⟨((unaccepted_content_type_rejected
        (sampleEnv "image/gif" (sampleProbe "16:9") (sampleRemux [9, 9]))
        sampleCfg (sampleRequest [1, 2, 3]) emptyFS).2 [1, 2, 3] "image/gif" rfl
        (fun h => absurd (Except.ok.inj
          (h : (Except.ok "image/gif" : Except String String) = .ok "image/jpg"))
          (by decide))
        (fun h => absurd (Except.ok.inj
          (h : (Except.ok "image/gif" : Except String String) = .ok "image/png"))
          (by decide))).1, by decide⟩⟩

/-! ## Stage failures (C7) -/

theorem mem_afterFailure (pre post : List Event) (e e2 : Event) (he : e.failed = true)
    (h : e2 ∈ post) : e2 ∈ afterFailure (pre ++ e :: post) := by
  induction pre with
  | nil => simpa [afterFailure, he] using h
  | cons a pre ih =>
    by_cases ha : a.failed = true
    · simp [afterFailure, ha, h]
    · simpa [afterFailure, ha] using ih

theorem RunShape.stage_order {env : Env} {cfg : ApiConfig} {r : Request} {out : Outcome}
    {tr : List Event} (hshape : RunShape env cfg r out tr) :
    tr.filterMap Event.stage <+: [.stage, .stage, .inspect, .remux, .upload, .commit] := by
  cases hshape with
  | rejected code msg hcode => simp [Event.stage]
  | createFailed => simp [Event.stage]
  | staged id video f mtype t out evs hid hvideo hform hmedia htemp hstaged =>
    cases hstaged with
    | copyFailed n => simp [Event.stage]
    | inspectFailed e => simp [Event.stage]
    | inspectFault m => simp [Event.stage]
    | seekFailed aspect => simp [Event.stage]
    | remuxFailed aspect => simp [Event.stage]
    | remuxed aspect out evs htail =>
      cases htail with
      | openFailed => simp [Event.stage]
      | randFailed => simp [Event.stage]
      | splitFault m => simp [Event.stage]
      | putFailed rs ext key2 hrand hext hkey => simp [Event.stage]
      | updateFailed rs ext key2 hrand hext hkey => simp [Event.stage]
      | signFailed rs ext key2 b k rest e hrand hext hkey hsplit hsign => simp [Event.stage]
      | signed rs ext key2 b k rest url hrand hext hkey hsplit hsign => simp [Event.stage]

theorem RunShape.failed_is_error_bool {env : Env} {cfg : ApiConfig} {r : Request}
    {out : Outcome} {tr : List Event} (hshape : RunShape env cfg r out tr) :
    (!tr.any Event.failed || out.isError) = true := by
  cases hshape with
  | rejected code msg hcode => rfl
  | createFailed => rfl
  | staged id video f mtype t out evs hid hvideo hform hmedia htemp hstaged =>
    cases hstaged with
    | copyFailed n => rfl
    | inspectFailed e => rfl
    | inspectFault m => rfl
    | seekFailed aspect => rfl
    | remuxFailed aspect => rfl
    | remuxed aspect out evs htail =>
      cases htail with
      | openFailed => rfl
      | randFailed => rfl
      | splitFault m => rfl
      | putFailed rs ext key2 hrand hext hkey => rfl
      | updateFailed rs ext key2 hrand hext hkey => rfl
      | signFailed rs ext key2 b k rest e hrand hext hkey hsplit hsign => rfl
      | signed rs ext key2 b k rest url hrand hext hkey hsplit hsign => rfl

theorem RunShape.failed_before_upload_bool {env : Env} {cfg : ApiConfig} {r : Request}
    {out : Outcome} {tr : List Event} (hshape : RunShape env cfg r out tr) :
    (!tr.any (fun e => e.failed && !e.isPutObject && !e.isUpdateVideo && !e.isPresign) ||
      tr.all (fun e2 => !e2.isPutObject && !e2.isUpdateVideo)) = true := by
  cases hshape with
  | rejected code msg hcode => rfl
  | createFailed => rfl
  | staged id video f mtype t out evs hid hvideo hform hmedia htemp hstaged =>
    cases hstaged with
    | copyFailed n => rfl
    | inspectFailed e => rfl
    | inspectFault m => rfl
    | seekFailed aspect => rfl
    | remuxFailed aspect => rfl
    | remuxed aspect out evs htail =>
      cases htail with
      | openFailed => rfl
      | randFailed => rfl
      | splitFault m => rfl
      | putFailed rs ext key2 hrand hext hkey => rfl
      | updateFailed rs ext key2 hrand hext hkey => rfl
      | signFailed rs ext key2 b k rest e hrand hext hkey hsplit hsign => rfl
      | signed rs ext key2 b k rest url hrand hext hkey hsplit hsign => rfl

theorem RunShape.failed_upload_bool {env : Env} {cfg : ApiConfig} {r : Request}
    {out : Outcome} {tr : List Event} (hshape : RunShape env cfg r out tr) :
    (!tr.any (fun e => e.failed && e.isPutObject) ||
      tr.all (fun e2 => !e2.isUpdateVideo)) = true := by
  cases hshape with
  | rejected code msg hcode => rfl
  | createFailed => rfl
  | staged id video f mtype t out evs hid hvideo hform hmedia htemp hstaged =>
    cases hstaged with
    | copyFailed n => rfl
    | inspectFailed e => rfl
    | inspectFault m => rfl
    | seekFailed aspect => rfl
    | remuxFailed aspect => rfl
    | remuxed aspect out evs htail =>
      cases htail with
      | openFailed => rfl
      | randFailed => rfl
      | splitFault m => rfl
      | putFailed rs ext key2 hrand hext hkey => rfl
      | updateFailed rs ext key2 hrand hext hkey => rfl
      | signFailed rs ext key2 b k rest e hrand hext hkey hsplit hsign => rfl
      | signed rs ext key2 b k rest url hrand hext hkey hsplit hsign => rfl

theorem RunShape.after_failure_bool {env : Env} {cfg : ApiConfig} {r : Request}
    {out : Outcome} {tr : List Event} (hshape : RunShape env cfg r out tr) :
    (afterFailure tr).all Event.isRemove = true := by
  cases hshape with
  | rejected code msg hcode => rfl
  | createFailed => rfl
  | staged id video f mtype t out evs hid hvideo hform hmedia htemp hstaged =>
    cases hstaged with
    | copyFailed n => rfl
    | inspectFailed e => rfl
    | inspectFault m => rfl
    | seekFailed aspect => rfl
    | remuxFailed aspect => rfl
    | remuxed aspect out evs htail =>
      cases htail with
      | openFailed => rfl
      | randFailed => rfl
      | splitFault m => rfl
      | putFailed rs ext key2 hrand hext hkey => rfl
      | updateFailed rs ext key2 hrand hext hkey => rfl
      | signFailed rs ext key2 b k rest e hrand hext hkey hsplit hsign => rfl
      | signed rs ext key2 b k rest url hrand hext hkey hsplit hsign => rfl

theorem or_of_not_or {a b : Bool} (h : (!a || b) = true) : a = false ∨ b = true := by
  cases a <;> cases b <;> simp at h ⊢

theorem isPutObject_of_stage_upload (e : Event) (h : e.stage = some .upload) :
    e.isPutObject = true := by
  cases e <;> first | rfl | simp [Event.stage] at h

theorem RunShape.failed_call {env : Env} {cfg : ApiConfig} {r : Request} {out : Outcome}
    {tr : List Event} (hshape : RunShape env cfg r out tr) :
    ∀ e ∈ tr, e.failed = true →
      out.isError = true ∧
      ((e.isPutObject = false ∧ e.isUpdateVideo = false ∧ e.isPresign = false) →
        ∀ e2 ∈ tr, e2.isPutObject = false ∧ e2.isUpdateVideo = false) ∧
      (e.stage = some .upload → ∀ e2 ∈ tr, e2.isUpdateVideo = false) := by
  intro e he hf
  refine ⟨?_, ?_, ?_⟩
  · rcases or_of_not_or hshape.failed_is_error_bool with h | h
    · rw [List.any_eq_false] at h
      exact absurd hf (h e he)
    · exact h
  · rintro ⟨h1, h2, h3⟩
    rcases or_of_not_or hshape.failed_before_upload_bool with h | h
    · rw [List.any_eq_false] at h
      exact absurd (by simp [hf, h1, h2, h3]) (h e he)
    · rw [List.all_eq_true] at h
      intro e2 he2
      simpa using h e2 he2
  · intro hs
    rcases or_of_not_or hshape.failed_upload_bool with h | h
    · rw [List.any_eq_false] at h
      exact absurd (by simp [hf, isPutObject_of_stage_upload e hs]) (h e he)
    · rw [List.all_eq_true] at h
      intro e2 he2
      simpa using h e2 he2

theorem RunShape.after_failure {env : Env} {cfg : ApiConfig} {r : Request} {out : Outcome}
    {tr : List Event} (hshape : RunShape env cfg r out tr) :
    ∀ e2 ∈ afterFailure tr, e2.isRemove = true :=
  List.all_eq_true.1 hshape.after_failure_bool

/-- C7: in every run of `handlerUploadVideo` the stage calls occur in the order
stage (create, copy), inspect, remux, upload, commit, each at most once. A call that
returned an error (a stage call, or `Seek`, `os.Open`, `rand.Read`, signing) is
answered by an error response and is followed by no call other than the deferred
`os.Remove`: every later stage is skipped. When the failed call comes before the
upload, neither `PutObject` nor `UpdateVideo` is called in the run; when it is
`PutObject`, `UpdateVideo` is not called. -/
theorem stage_failure_aborts (env : Env) (cfg : ApiConfig) (r : Request) (fs : FS) :
    ((handlerUploadVideo env cfg r fs).2.trace.filterMap Event.stage
        <+: [.stage, .stage, .inspect, .remux, .upload, .commit]) ∧
    (∀ e ∈ (handlerUploadVideo env cfg r fs).2.trace, e.failed = true →
      (handlerUploadVideo env cfg r fs).1.isError = true ∧
      ((e.isPutObject = false ∧ e.isUpdateVideo = false ∧ e.isPresign = false) →
        ∀ e2 ∈ (handlerUploadVideo env cfg r fs).2.trace,
          e2.isPutObject = false ∧ e2.isUpdateVideo = false) ∧
      (e.stage = some .upload →
        ∀ e2 ∈ (handlerUploadVideo env cfg r fs).2.trace, e2.isUpdateVideo = false)) ∧
    (∀ (pre post : List Event) (e : Event),
      (handlerUploadVideo env cfg r fs).2.trace = pre ++ e :: post → e.failed = true →
      ∀ e2 ∈ post, e2.isRemove = true) := by
  have hshape := handlerUploadVideo_shape env cfg r fs
  refine ⟨hshape.stage_order, hshape.failed_call, ?_⟩
  intro pre post e htr he e2 he2
  exact hshape.after_failure e2 (htr ▸ mem_afterFailure pre post e e2 he he2)

/-- C7 at the run of a valid upload whose inspection fails (the probe output is not
valid JSON): the answer is an error, the remuxer is not run, and neither `PutObject`
nor `UpdateVideo` is called. -/
theorem stage_failure_aborts_witness :
    (handlerUploadVideo
        { sampleEnv "video/mp4" (sampleProbe "16:9") (sampleRemux [9, 9]) with
          jsonUnmarshal := fun _ => .error "unexpected end of JSON input" }
        sampleCfg (sampleRequest [1, 2, 3]) emptyFS).1.isError = true ∧
    (∀ e2 ∈ (handlerUploadVideo
        { sampleEnv "video/mp4" (sampleProbe "16:9") (sampleRemux [9, 9]) with
          jsonUnmarshal := fun _ => .error "unexpected end of JSON input" }
        sampleCfg (sampleRequest [1, 2, 3]) emptyFS).2.trace,
      e2.isPutObject = false ∧ e2.isUpdateVideo = false) ∧
    (∀ e2 ∈ [Event.remove "tubely-upload.mp4"], e2.isRemove = true) :=
  ⟨((stage_failure_aborts
        { sampleEnv "video/mp4" (sampleProbe "16:9") (sampleRemux [9, 9]) with
          jsonUnmarshal := fun _ => .error "unexpected end of JSON input" }
        sampleCfg (sampleRequest [1, 2, 3]) emptyFS).2.1
      (.inspect "/tmp/tubely-upload.mp41234567" (.err "unexpected end of JSON input"))
      (by decide) rfl).1,
    ((stage_failure_aborts
        { sampleEnv "video/mp4" (sampleProbe "16:9") (sampleRemux [9, 9]) with
          jsonUnmarshal := fun _ => .error "unexpected end of JSON input" }
        sampleCfg (sampleRequest [1, 2, 3]) emptyFS).2.1
      (.inspect "/tmp/tubely-upload.mp41234567" (.err "unexpected end of JSON input"))
      (by decide) rfl).2.1 ⟨rfl, rfl, rfl⟩,
    (stage_failure_aborts
        { sampleEnv "video/mp4" (sampleProbe "16:9") (sampleRemux [9, 9]) with
          jsonUnmarshal := fun _ => .error "unexpected end of JSON input" }
        sampleCfg (sampleRequest [1, 2, 3]) emptyFS).2.2
      [.createTemp (some "/tmp/tubely-upload.mp41234567"),
        .copy "/tmp/tubely-upload.mp41234567" [1, 2, 3] true]
      [.remove "tubely-upload.mp4"]
      (.inspect "/tmp/tubely-upload.mp41234567" (.err "unexpected end of JSON input"))
      (by decide) rfl⟩

/-! ## The response URL and the stored reference (C8, C9) -/

theorem comma_not_mem_aspectName (aspect : String) : ',' ∉ (aspectName aspect).data := by
  rcases aspectName_cases aspect with h | h | h <;> rw [h] <;> decide

theorem comma_not_mem_key (aspect ext : String) (rs : Bytes) (hext : ',' ∉ ext.toList) :
    ',' ∉ (aspectName aspect ++ "/" ++ EncodeToString rs ++ "." ++ ext).toList := by
  show ',' ∉ (aspectName aspect ++ "/" ++ EncodeToString rs ++ "." ++ ext).data
  simp only [String.data_append, List.mem_append, not_or]
  refine ⟨⟨⟨⟨comma_not_mem_aspectName aspect, by decide⟩, ?_⟩, by decide⟩, hext⟩
  intro hc
  exact comma_not_mem_encodeURL (encodeChars_mem rs ',' hc)

theorem RunShape.sign_failed {env : Env} {cfg : ApiConfig} {r : Request} {out : Outcome}
    {tr : List Event} (hshape : RunShape env cfg r out tr) :
    ∀ (bucket key : String) (expire : Nat), Event.presign bucket key expire false ∈ tr →
      ∃ msg, out = .respondWithError 500 msg := by
  intro bucket key expire hmem
  cases hshape with
  | rejected code msg hcode => simp at hmem
  | createFailed => simp at hmem
  | staged id video f mtype t out evs hid hvideo hform hmedia htemp hstaged =>
    cases hstaged with
    | copyFailed n => simp at hmem
    | inspectFailed e => simp at hmem
    | inspectFault m => simp at hmem
    | seekFailed aspect => simp at hmem
    | remuxFailed aspect => simp at hmem
    | remuxed aspect out evs htail =>
      cases htail with
      | openFailed => simp at hmem
      | randFailed => simp at hmem
      | splitFault m => simp at hmem
      | putFailed rs ext key2 hrand hext hkey => simp at hmem
      | updateFailed rs ext key2 hrand hext hkey => simp at hmem
      | signFailed rs ext key2 b k rest e hrand hext hkey hsplit hsign => exact ⟨_, rfl⟩
      | signed rs ext key2 b k rest url hrand hext hkey hsplit hsign =>
        simp at hmem

/-- C8 as stated fails: with the bucket `tubely` (no comma) and the declared header
`video/mp4; a="x,y"`, which `mime.ParseMediaType` parses to `video/mp4`, the run
succeeds, `PutObject` receives a key that holds a comma, and `generatePresignedURL`
is called with that key cut at the comma, not with the key given to `PutObject`. -/
theorem presigned_key_cut_at_comma :
    ',' ∉ sampleCfg.s3Bucket.toList ∧
    sampleParseMediaType "video/mp4; a=\"x,y\"" = .ok "video/mp4" ∧
    (handlerUploadVideo
        (sampleEnv "video/mp4; a=\"x,y\"" (sampleProbe "16:9") (sampleRemux [9, 9]))
        sampleCfg (sampleRequest [1, 2, 3]) emptyFS).1
      = .respondWithJSON 200
          { ID := "6b1e2b0e-3c1f-4a7e-9d55-0f2a4c8e1b7d", UserID := "alice", ThumbnailURL := none,
            VideoURL := some
              "https://tubely.example/landscape/AAECAwQFBgcICQoLDA0ODxAREhMUFRYXGBkaGxwdHh8.mp4; a=\"x?sig" } ∧
    (handlerUploadVideo
        (sampleEnv "video/mp4; a=\"x,y\"" (sampleProbe "16:9") (sampleRemux [9, 9]))
        sampleCfg (sampleRequest [1, 2, 3]) emptyFS).2.trace.filter Event.isPutObject
      = [.putObject "tubely"
          "landscape/AAECAwQFBgcICQoLDA0ODxAREhMUFRYXGBkaGxwdHh8.mp4; a=\"x,y\""
          [1, 2, 3] "video/mp4" true] ∧
    (handlerUploadVideo
        (sampleEnv "video/mp4; a=\"x,y\"" (sampleProbe "16:9") (sampleRemux [9, 9]))
        sampleCfg (sampleRequest [1, 2, 3]) emptyFS).2.trace.filter Event.isPresign
      = [.presign "tubely" "landscape/AAECAwQFBgcICQoLDA0ODxAREhMUFRYXGBkaGxwdHh8.mp4; a=\"x"
          (5 * Minute) true] ∧
    ("landscape/AAECAwQFBgcICQoLDA0ODxAREhMUFRYXGBkaGxwdHh8.mp4; a=\"x" : String)
      ≠ "landscape/AAECAwQFBgcICQoLDA0ODxAREhMUFRYXGBkaGxwdHh8.mp4; a=\"x,y\"" :=
  ⟨by decide, rfl, by decide, by decide, by decide, by decide⟩

/-- C8, amended. In every run of `handlerUploadVideo`: a signing call that fails is
answered by an error, not by a Video Record; and a run that answers with a Video
Record answers 200 with `VideoURL` equal to the URL that the signer returned, the
signing call being made with an expiry of five minutes on the first two comma-pieces
of `<bucket>,<key>` for the bucket and key of the run's single `PutObject` call. When
neither the bucket name nor the object key holds a comma (the key holds one exactly
when the piece of the declared `Content-Type` header between its first and second `/`
does), the signing call is made with exactly that bucket and exactly that key; and as
long as the signer never returns the text `<bucket>,<key>` itself, `VideoURL` is not
the raw form. -/
theorem response_url_is_presigned (env : Env) (cfg : ApiConfig) (r : Request) (fs : FS) :
    (∀ (bucket key : String) (expire : Nat),
      Event.presign bucket key expire false ∈ (handlerUploadVideo env cfg r fs).2.trace →
      ∃ msg, (handlerUploadVideo env cfg r fs).1 = .respondWithError 500 msg) ∧
    (∀ (code : Nat) (v : Video),
      (handlerUploadVideo env cfg r fs).1 = .respondWithJSON code v →
      code = 200 ∧
      ∃ (f : Bytes) (mtype ext key : String) (body : Bytes) (contentType b k url : String)
          (rest : List String),
        env.formFile r.Body "video" = .ok (f, mtype) ∧
        (Split mtype '/').get? 1 = some ext ∧
        (handlerUploadVideo env cfg r fs).2.trace.filter Event.isPutObject
          = [.putObject cfg.s3Bucket key body contentType true] ∧
        Split (cfg.s3Bucket ++ "," ++ key) ',' = b :: k :: rest ∧
        (handlerUploadVideo env cfg r fs).2.trace.filter Event.isPresign
          = [.presign b k (5 * Minute) true] ∧
        env.presignGetObject b k (5 * Minute) = .ok url ∧
        v.VideoURL = some url ∧
        (',' ∈ key.toList ↔ ',' ∈ ext.toList) ∧
        (',' ∉ cfg.s3Bucket.toList → ',' ∉ key.toList →
          b = cfg.s3Bucket ∧ k = key ∧
          ((∀ (b2 k2 : String) (e2 : Nat) (u : String),
              env.presignGetObject b2 k2 e2 = .ok u → u ≠ b2 ++ "," ++ k2) →
            v.VideoURL ≠ some (cfg.s3Bucket ++ "," ++ key)))) := by
  have hshape := handlerUploadVideo_shape env cfg r fs
  refine ⟨hshape.sign_failed, ?_⟩
  generalize (handlerUploadVideo env cfg r fs).1 = out at hshape
  generalize (handlerUploadVideo env cfg r fs).2.trace = tr at hshape
  intro code v hv
  cases hshape with
  | rejected code msg hcode => cases hv
  | createFailed => cases hv
  | staged id video f mtype t out evs hid hvideo hform hmedia htemp hstaged =>
    cases hstaged with
    | copyFailed n => cases hv
    | inspectFailed e => cases hv
    | inspectFault m => cases hv
    | seekFailed aspect => cases hv
    | remuxFailed aspect => cases hv
    | remuxed aspect out evs htail =>
      cases htail with
      | openFailed => cases hv
      | randFailed => cases hv
      | splitFault m => cases hv
      | putFailed rs ext key2 hrand hext hkey => cases hv
      | updateFailed rs ext key2 hrand hext hkey => cases hv
      | signFailed rs ext key2 b k rest e hrand hext hkey hsplit hsign => cases hv
      | signed rs ext key2 b k rest url hrand hext hkey hsplit hsign =>
        cases hv
        refine ⟨rfl, f, mtype, ext, key2, f, "video/mp4", b, k, url, rest, hform, hext,
          rfl, hsplit, rfl, hsign, rfl, ?_, ?_⟩
        · constructor
          · intro hc
            by_contra hne
            exact absurd hc (hkey ▸ comma_not_mem_key aspect ext rs.val hne)
          · intro hc
            rw [hkey]
            show ',' ∈ (aspectName aspect ++ "/" ++ EncodeToString rs.val ++ "." ++ ext).data
            simp only [String.data_append, List.mem_append]
            exact Or.inr hc
        · intro hb hk
          rw [Split_comma cfg.s3Bucket key2 hb hk] at hsplit
          cases hsplit
          exact ⟨rfl, rfl, fun hsigner h => hsigner _ _ _ _ hsign (Option.some.inj h)⟩

/-- C8, amended, at the run of a valid 16:9 upload declaring `video/mp4`: the signing
call is made with the bucket `tubely` and the key given to `PutObject`. -/
theorem response_url_is_presigned_witness :
    ∃ (f : Bytes) (mtype ext key : String) (body : Bytes) (contentType b k url : String)
        (rest : List String),
      (sampleEnv "video/mp4" (sampleProbe "16:9") (sampleRemux [9, 9])).formFile
        (sampleRequest [1, 2, 3]).Body "video" = .ok (f, mtype) ∧
      (Split mtype '/').get? 1 = some ext ∧
      (handlerUploadVideo (sampleEnv "video/mp4" (sampleProbe "16:9") (sampleRemux [9, 9]))
          sampleCfg (sampleRequest [1, 2, 3]) emptyFS).2.trace.filter Event.isPutObject
        = [.putObject sampleCfg.s3Bucket key body contentType true] ∧
      Split (sampleCfg.s3Bucket ++ "," ++ key) ',' = b :: k :: rest ∧
      (handlerUploadVideo (sampleEnv "video/mp4" (sampleProbe "16:9") (sampleRemux [9, 9]))
          sampleCfg (sampleRequest [1, 2, 3]) emptyFS).2.trace.filter Event.isPresign
        = [.presign b k (5 * Minute) true] ∧
      (sampleEnv "video/mp4" (sampleProbe "16:9") (sampleRemux [9, 9])).presignGetObject
          b k (5 * Minute) = .ok url ∧
      (some "https://tubely.example/landscape/AAECAwQFBgcICQoLDA0ODxAREhMUFRYXGBkaGxwdHh8.mp4?sig"
        : Option String) = some url ∧
      (',' ∈ key.toList ↔ ',' ∈ ext.toList) ∧
      (',' ∉ sampleCfg.s3Bucket.toList → ',' ∉ key.toList →
        b = sampleCfg.s3Bucket ∧ k = key ∧
        ((∀ (b2 k2 : String) (e2 : Nat) (u : String),
            (sampleEnv "video/mp4" (sampleProbe "16:9") (sampleRemux [9, 9])).presignGetObject
              b2 k2 e2 = .ok u → u ≠ b2 ++ "," ++ k2) →
          (some "https://tubely.example/landscape/AAECAwQFBgcICQoLDA0ODxAREhMUFRYXGBkaGxwdHh8.mp4?sig"
            : Option String) ≠ some (sampleCfg.s3Bucket ++ "," ++ key))) :=
  ((response_url_is_presigned
      (sampleEnv "video/mp4" (sampleProbe "16:9") (sampleRemux [9, 9]))
      sampleCfg (sampleRequest [1, 2, 3]) emptyFS).2 200
    { ID := "6b1e2b0e-3c1f-4a7e-9d55-0f2a4c8e1b7d", UserID := "alice", ThumbnailURL := none,
      VideoURL := some
        "https://tubely.example/landscape/AAECAwQFBgcICQoLDA0ODxAREhMUFRYXGBkaGxwdHh8.mp4?sig" }
    (by decide)).2

theorem mem_afterSign (pre post : List Event) (p e2 : Event) (hp : p.isPresign = true)
    (h : e2 ∈ post) : e2 ∈ afterSign (pre ++ p :: post) := by
  induction pre with
  | nil => simpa [afterSign, hp] using h
  | cons a pre ih =>
    by_cases ha : a.isPresign = true
    · simp [afterSign, ha, h]
    · simpa [afterSign, ha] using ih

theorem RunShape.update_once {env : Env} {cfg : ApiConfig} {r : Request} {out : Outcome}
    {tr : List Event} (hshape : RunShape env cfg r out tr) :
    decide ((tr.filter Event.isUpdateVideo).length ≤ 1) = true ∧
      ((afterSign tr).all (fun e2 => !e2.isUpdateVideo)) = true := by
  cases hshape with
  | rejected code msg hcode => exact ⟨rfl, rfl⟩
  | createFailed => exact ⟨rfl, rfl⟩
  | staged id video f mtype t out evs hid hvideo hform hmedia htemp hstaged =>
    cases hstaged with
    | copyFailed n => exact ⟨rfl, rfl⟩
    | inspectFailed e => exact ⟨rfl, rfl⟩
    | inspectFault m => exact ⟨rfl, rfl⟩
    | seekFailed aspect => exact ⟨rfl, rfl⟩
    | remuxFailed aspect => exact ⟨rfl, rfl⟩
    | remuxed aspect out evs htail =>
      cases htail <;> exact ⟨rfl, rfl⟩

theorem RunShape.update_record {env : Env} {cfg : ApiConfig} {r : Request} {out : Outcome}
    {tr : List Event} (hshape : RunShape env cfg r out tr) :
    ∀ (v : Video) (ok : Bool), Event.updateVideo v ok ∈ tr →
      ∃ (id : String) (video : Video) (key : String) (body : Bytes) (contentType : String),
        env.uuidParse r.videoID = .ok id ∧ env.getVideo id = .ok video ∧
        tr.filter Event.isPutObject = [.putObject cfg.s3Bucket key body contentType true] ∧
        v = { video with VideoURL := some (cfg.s3Bucket ++ "," ++ key) } := by
  intro v ok hv
  cases hshape with
  | rejected code msg hcode => simp at hv
  | createFailed => simp at hv
  | staged id video f mtype t out evs hid hvideo hform hmedia htemp hstaged =>
    cases hstaged with
    | copyFailed n => simp at hv
    | inspectFailed e => simp at hv
    | inspectFault m => simp at hv
    | seekFailed aspect => simp at hv
    | remuxFailed aspect => simp at hv
    | remuxed aspect out evs htail =>
      cases htail with
      | openFailed => simp at hv
      | randFailed => simp at hv
      | splitFault m => simp at hv
      | putFailed rs ext key2 hrand hext hkey => simp at hv
      | updateFailed rs ext key2 hrand hext hkey =>
        simp at hv
        exact ⟨id, video, key2, f, "video/mp4", hid, hvideo, rfl, hv.1⟩
      | signFailed rs ext key2 b k rest e hrand hext hkey hsplit hsign =>
        simp at hv
        exact ⟨id, video, key2, f, "video/mp4", hid, hvideo, rfl, hv.1⟩
      | signed rs ext key2 b k rest url hrand hext hkey hsplit hsign =>
        simp at hv
        exact ⟨id, video, key2, f, "video/mp4", hid, hvideo, rfl, hv.1⟩

/-- C9: in every run of `handlerUploadVideo`, `UpdateVideo` is called at most once;
the record it receives is the one returned by `GetVideo` with `VideoURL` set to
`<bucket>,<key>` for the key given to `PutObject` and nothing else changed; and no
`UpdateVideo` call follows a signing call, so a signed URL is never written to the
metadata store. -/
theorem signed_url_never_persisted (env : Env) (cfg : ApiConfig) (r : Request) (fs : FS) :
    ((handlerUploadVideo env cfg r fs).2.trace.filter Event.isUpdateVideo).length ≤ 1 ∧
    (∀ (v : Video) (ok : Bool),
      Event.updateVideo v ok ∈ (handlerUploadVideo env cfg r fs).2.trace →
      ∃ (id : String) (video : Video) (key : String) (body : Bytes) (contentType : String),
        env.uuidParse r.videoID = .ok id ∧ env.getVideo id = .ok video ∧
        (handlerUploadVideo env cfg r fs).2.trace.filter Event.isPutObject
          = [.putObject cfg.s3Bucket key body contentType true] ∧
        v = { video with VideoURL := some (cfg.s3Bucket ++ "," ++ key) }) ∧
    (∀ (pre post : List Event) (bucket key : String) (expire : Nat) (ok : Bool),
      (handlerUploadVideo env cfg r fs).2.trace
        = pre ++ Event.presign bucket key expire ok :: post →
      ∀ e2 ∈ post, e2.isUpdateVideo = false) := by
  have hshape := handlerUploadVideo_shape env cfg r fs
  refine ⟨of_decide_eq_true hshape.update_once.1, hshape.update_record, ?_⟩
  intro pre post bucket key expire ok htr e2 he2
  have h := List.all_eq_true.1 hshape.update_once.2 e2
    (htr ▸ mem_afterSign pre post _ e2 rfl he2)
  simpa using h

/-- C9 at the run of a valid 16:9 upload: the record written is the fetched one with
the composite reference. -/
theorem signed_url_never_persisted_witness :
    ∃ (id : String) (video : Video) (key : String) (body : Bytes) (contentType : String),
      (sampleEnv "video/mp4" (sampleProbe "16:9") (sampleRemux [9, 9])).uuidParse
        (sampleRequest [1, 2, 3]).videoID = .ok id ∧
      (sampleEnv "video/mp4" (sampleProbe "16:9") (sampleRemux [9, 9])).getVideo id = .ok video ∧
      (handlerUploadVideo (sampleEnv "video/mp4" (sampleProbe "16:9") (sampleRemux [9, 9]))
          sampleCfg (sampleRequest [1, 2, 3]) emptyFS).2.trace.filter Event.isPutObject
        = [.putObject sampleCfg.s3Bucket key body contentType true] ∧
      ({ ID := "6b1e2b0e-3c1f-4a7e-9d55-0f2a4c8e1b7d", UserID := "alice", ThumbnailURL := none,
         VideoURL := some "tubely,landscape/AAECAwQFBgcICQoLDA0ODxAREhMUFRYXGBkaGxwdHh8.mp4" }
        : Video) = { video with VideoURL := some (sampleCfg.s3Bucket ++ "," ++ key) } :=
  (signed_url_never_persisted (sampleEnv "video/mp4" (sampleProbe "16:9") (sampleRemux [9, 9]))
    sampleCfg (sampleRequest [1, 2, 3]) emptyFS).2.1
    { ID := "6b1e2b0e-3c1f-4a7e-9d55-0f2a4c8e1b7d", UserID := "alice", ThumbnailURL := none,
      VideoURL := some "tubely,landscape/AAECAwQFBgcICQoLDA0ODxAREhMUFRYXGBkaGxwdHh8.mp4" }
    true (by decide)

end Tubely
